import Mathlib

/-!
# TritonNvidiaGPU operations: verifiers and memory-effect inference

A shallow embedding of `lib/Dialect/TritonNvidiaGPU/IR/Ops.cpp`.

* Types, encodings and attributes of the hosting IR are plain data.
* A verifier returning `LogicalResult` becomes a function into
  `Except String Unit`; the error carries the text given to `emitOpError`.
  For `WarpGroupDotOp`, `TMEMCopyOp` and the dimension functions of
  `TCGen5MMAScaledOp`, a run that ends in a failed assertion (`cast`, or `isa`
  and `dyn_cast` applied to an absent encoding) returns nothing: the result is
  wrapped in `Option` and `none` stands for that run.
* `getEffects` becomes a function returning the list of effect instances in
  the order in which the source appends them.
* `int64_t` and `int` arithmetic is arithmetic on `Int` followed by an
  explicit two's-complement wrap; `size_t` arithmetic is arithmetic on `Nat`
  modulo `2 ^ 64`; an out-of-range `operator[]` yields `none`.
-/

/-! ## Data model -/

/-- Modelled from the spec: the element types the operations distinguish
(`Float8E5M2Type`, `Float8E4M3FNType`, their FNUZ siblings, integers of a given
width, `f16`, `bf16`, `f32`); the type declarations are not part of the sources
and `F64` stands for a float type outside every set the code tests. -/
inductive ElemType where
  | Float8E5M2
  | Float8E4M3FN
  | Float8E5M2FNUZ
  | Float8E4M3FNUZ
  | Integer (width : Nat)
  | F16
  | BF16
  | F32
  | F64
  deriving DecidableEq, Repr

/-- Modelled from the spec: the layout descriptor of a tensor or memory
descriptor, one constructor per variant of section 3 (`NVMMASharedEncoding`,
`TensorMemoryEncoding`, `TensorMemoryScalesEncoding`, `DistributedEncoding`,
`NvidiaMmaEncoding`, `DotOperandEncoding`). `NvidiaMma` carries what
`isHopper()` answers. -/
inductive Encoding where
  | NVMMAShared (transposed : Bool) (fp4Padded : Bool) (swizzlingByteWidth : Nat)
  | TensorMemory (blockM : Nat) (blockN : Nat) (unpacked : Bool)
      (ctaSplitM : Nat) (ctaSplitN : Nat)
  | TensorMemoryScales
  | Distributed (tag : Nat)
  | NvidiaMma (isHopper : Bool)
  | DotOperand
  deriving DecidableEq, Repr

/-- Modelled from the spec: the memory space attribute of a memory
descriptor. -/
inductive MemorySpace where
  | Shared
  | TensorMemory
  | Distributed
  deriving DecidableEq, Repr

/-- Modelled from the spec: `RankedTensorType`, a register tensor type; the
encoding attribute may be absent. -/
structure RankedTensorType where
  shape : List Int
  elementType : ElemType
  encoding : Option Encoding
  deriving DecidableEq, Repr

/-- Modelled from the spec: `MemDescType`, the memory descriptor of section 3
(shape, element type, encoding, memory space, mutability). -/
structure MemDescType where
  shape : List Int
  elementType : ElemType
  encoding : Option Encoding
  memorySpace : MemorySpace
  mutableMemory : Bool
  deriving DecidableEq, Repr

/-- Modelled from the spec: `TensorOrMemDesc`, the operand type category of a
dot operand: a register tensor or a memory descriptor. -/
inductive TensorOrMemDesc where
  | tensor (t : RankedTensorType)
  | memDesc (m : MemDescType)
  deriving DecidableEq, Repr

/-- Shape of either operand category (`getShape()`). -/
def TensorOrMemDesc.getShape : TensorOrMemDesc → List Int
  | .tensor t => t.shape
  | .memDesc m => m.shape

/-- Element type of either operand category (`getElementType()`). -/
def TensorOrMemDesc.getElementType : TensorOrMemDesc → ElemType
  | .tensor t => t.elementType
  | .memDesc m => m.elementType

/-- Encoding of either operand category (`getEncoding()`). -/
def TensorOrMemDesc.getEncoding : TensorOrMemDesc → Option Encoding
  | .tensor t => t.encoding
  | .memDesc m => m.encoding

/-- The test `isa<MemDescType>(type)`. -/
def TensorOrMemDesc.isMemDesc : TensorOrMemDesc → Bool
  | .tensor _ => false
  | .memDesc _ => true

/-- The variant test behind `isa<NVMMASharedEncodingAttr>` on a present
encoding. -/
def Encoding.isNVMMAShared : Encoding → Bool
  | .NVMMAShared _ _ _ => true
  | _ => false

/-- The variant test behind `isa<DotOperandEncodingAttr>` on a present
encoding. -/
def Encoding.isDotOperand : Encoding → Bool
  | .DotOperand => true
  | _ => false

/-- The test `nvmmaEnc && nvmmaEnc.isHopper()` on the result of
`dyn_cast<NvidiaMmaEncodingAttr>` of a present encoding: the encoding is an
NVIDIA MMA encoding and carries the Hopper tag. -/
def Encoding.isHopperNvidiaMma : Encoding → Bool
  | .NvidiaMma isHopper => isHopper
  | _ => false

/-- Modelled from the spec: the dynamic type test `isa<NVMMASharedEncodingAttr>`
on an encoding attribute. On an absent (null) attribute the cast machinery
asserts and no value is returned: `none`. -/
def isNVMMAShared : Option Encoding → Option Bool
  | none => none
  | some e => some e.isNVMMAShared

/-- Modelled from the spec: the dynamic type test
`isa<DotOperandEncodingAttr>`; `none` when the attribute is absent and the test
asserts. -/
def isDotOperand : Option Encoding → Option Bool
  | none => none
  | some e => some e.isDotOperand

/-- Modelled from the spec: `dyn_cast<NvidiaMmaEncodingAttr>(enc)` followed by
the test `!nvmmaEnc || !nvmmaEnc.isHopper()` negated; `none` when the attribute
is absent and `dyn_cast` asserts. -/
def isHopperNvidiaMma : Option Encoding → Option Bool
  | none => none
  | some e => some e.isHopperNvidiaMma

/-- The test `isa<Float8E5M2Type, Float8E4M3FNType>(ty)`. -/
def ElemType.isFloat8E5M2OrE4M3FN : ElemType → Bool
  | .Float8E5M2 => true
  | .Float8E4M3FN => true
  | _ => false

/-- The test `ty.isInteger(width)`. -/
def ElemType.isInteger (ty : ElemType) (width : Nat) : Bool :=
  match ty with
  | .Integer w => w == width
  | _ => false

/-- The test `ty.isF16()`. -/
def ElemType.isF16 : ElemType → Bool
  | .F16 => true
  | _ => false

/-- The test `ty.isBF16()`. -/
def ElemType.isBF16 : ElemType → Bool
  | .BF16 => true
  | _ => false

/-- The test `ty.isF32()`. -/
def ElemType.isF32 : ElemType → Bool
  | .F32 => true
  | _ => false

/-! ## WarpGroupDotOp -/

/-- Modelled from the spec: what the hosting framework answers for one
operation: `lookupNumWarps(op)` and `getShapePerCTA(type)`; neither function is
part of the sources. -/
structure Host where
  lookupNumWarps : Int
  getShapePerCTA : RankedTensorType → List Int

/-- The WarpGroupDot instruction: the types of operands `a` and `b`, the type of
the result `d` (which is the accumulator type) and the attribute
`maxNumImpreciseAcc` (a `uint32_t`). -/
structure WarpGroupDotOp where
  a : TensorOrMemDesc
  b : TensorOrMemDesc
  d : RankedTensorType
  maxNumImpreciseAcc : Nat
  deriving DecidableEq, Repr

/-- The element-type test of `WarpGroupDotOp::verify`, lines 90-92, applied to
`aElemTy`. -/
def wgmmaElemTyAllowed (aElemTy : ElemType) : Bool :=
  aElemTy.isFloat8E5M2OrE4M3FN || aElemTy.isInteger 8 || aElemTy.isF16 ||
    aElemTy.isBF16 || aElemTy.isF32

/-- The function `WarpGroupDotOp::verify`; `none` when `dyn_cast` or `isa` is
applied to an absent encoding and asserts, otherwise the returned
`LogicalResult`. -/
def WarpGroupDotOp.verify (host : Host) (op : WarpGroupDotOp) : Option (Except String Unit) :=
  let resTy := op.d
  match isHopperNvidiaMma resTy.encoding with
  | none => none
  | some hopper =>
    if !hopper then
      some (.error "WGMMA result layout must be Hopper NVMMA")
    else
      match isNVMMAShared op.a.getEncoding, isDotOperand op.a.getEncoding with
      | some aShared, some aDot =>
        if !(aShared || aDot) then
          some (.error "WGMMA A operand must have NVMMA shared or dot layout")
        else
          match isNVMMAShared op.b.getEncoding with
          | none => none
          | some bShared =>
            if !bShared then
              some (.error "WGMMA B operand must have NVMMA shared layout")
            else
              let numWarps := host.lookupNumWarps
              if Int.tmod numWarps 4 ≠ 0 then
                some (.error "WGMMA requires num_warps to be divisible by 4")
              else
                let retShapePerCTA := host.getShapePerCTA resTy
                let rank := retShapePerCTA.length
                if rank ≠ 2 then
                  some (.error "WGMMA result shape must be 2D")
                else if Int.tmod (retShapePerCTA.getD 0 0) 64 ≠ 0 then
                  some (.error "WGMMA result M dimension must be divisible by 64")
                else if Int.tmod (retShapePerCTA.getD 1 0) 8 ≠ 0 then
                  some (.error "WGMMA result N dimension must be divisible by 8")
                else
                  let aElemTy := op.a.getElementType
                  if !wgmmaElemTyAllowed aElemTy then
                    some (.error "WGMMA result element type must be F16, BF16, F32, F8E5M2, F8E4M3FN, or integer type")
                  else if decide (op.maxNumImpreciseAcc < 32) &&
                      aElemTy.isFloat8E5M2OrE4M3FN && resTy.elementType.isF32 then
                    some (.error "Cannot use F32 as the accumulator element type when the max_num_imprecise_acc is less than 32")
                  else
                    some (.ok ())
      | _, _ => none

/-- Subtraction of `size_t` values: the difference modulo `2 ^ 64`, for
`k ≤ 2 ^ 64`. -/
def sizeSub (n k : Nat) : Nat := (n + 2 ^ 64 - k) % 2 ^ 64

/-- Two's-complement wrap of an integer to `int64_t`. -/
def wrap64 (x : Int) : Int := (x + 2 ^ 63) % 2 ^ 64 - 2 ^ 63

/-- Two's-complement wrap of an integer to `int` (32 bits): the value a
narrowing conversion or a multiplication leaves in an `int`. -/
def wrap32 (x : Int) : Int := (x + 2 ^ 31) % 2 ^ 32 - 2 ^ 31

/-- The function `WarpGroupDotOp::verifyDims`; `none` when a subscript is out
of range. -/
def WarpGroupDotOp.verifyDims (op : WarpGroupDotOp) : Option Bool := do
  let aShape := op.a.getShape
  let bShape := op.b.getShape
  let lhs ← aShape[sizeSub aShape.length 1]?
  let rhs ← bShape[sizeSub aShape.length 2]?
  pure (lhs == rhs)

/-! ## Effects -/

/-- Modelled from the spec: the access kind of an effect record
(`MemoryEffects::Read`, `Write`, `Allocate`). -/
inductive Effect where
  | Read
  | Write
  | Allocate
  deriving DecidableEq, Repr

/-- Modelled from the spec: the resource an effect is attributed to
(`SharedMemory::get()`, `TensorMemory::get()`). -/
inductive Resource where
  | SharedMemory
  | TensorMemory
  deriving DecidableEq, Repr

/-- The operand or result an effect instance refers to (`&getAMutable()`,
`&getDMutable()`, ..., `getOpResult(0)`). -/
inductive EffectValue where
  | operandA
  | operandB
  | operandD
  | operandAScale
  | operandBScale
  | opResult (index : Nat)
  deriving DecidableEq, Repr

/-- One entry of the effect list: what `effects.emplace_back(effect, value,
resource)` appends. -/
structure EffectInstance where
  effect : Effect
  value : EffectValue
  resource : Resource
  deriving DecidableEq, Repr

/-! ## TCGen5MMAOp -/

/-- Modelled from the spec: an SSA value as far as the operations inspect it:
its identity and, when its defining operation is an integer constant, the
integer that `matchPattern(value, m_ConstantInt(&x))` binds (the evaluator
`tryConstantInt` of section 9). -/
structure Value where
  id : Nat
  constantInt : Option Int
  deriving DecidableEq, Repr

/-- The TCGen5MMA instruction: whether the token result type is present, the
types of the memory operands `a`, `b`, `d`, the remaining operands and the unit
attributes `is_async` and `two_ctas`. -/
structure TCGen5MMAOp where
  token : Bool
  a : MemDescType
  b : MemDescType
  d : MemDescType
  accDep : Option Value
  useD : Value
  pred : Value
  barriers : List Value
  barrierPreds : List Value
  isAsync : Bool
  twoCTAs : Bool
  deriving DecidableEq, Repr

/-- The function `TCGen5MMAOp::verify`. -/
def TCGen5MMAOp.verify (op : TCGen5MMAOp) : Except String Unit :=
  if !op.isAsync && !op.barriers.isEmpty then
    .error "The op is synchronous but a barrier is present."
  else
    .ok ()

/-- The condition of lines 271 and 341:
`!matchPattern(useD, m_ConstantInt(&c)) || !c.isZero()`. -/
def notKnownZero (useD : Value) : Bool :=
  match useD.constantInt with
  | none => true
  | some c => !(c == 0)

/-- The function `TCGen5MMAOp::getEffects`. -/
def TCGen5MMAOp.getEffects (op : TCGen5MMAOp) : List EffectInstance :=
  let effects : List EffectInstance := []
  let effects :=
    if notKnownZero op.useD then
      effects ++ [⟨.Read, .operandD, .TensorMemory⟩]
    else effects
  let effects := effects ++ [⟨.Write, .operandD, .TensorMemory⟩]
  let effects :=
    if op.a.memorySpace == .Shared then
      effects ++ [⟨.Read, .operandA, .SharedMemory⟩]
    else
      effects ++ [⟨.Read, .operandA, .TensorMemory⟩]
  effects ++ [⟨.Read, .operandB, .SharedMemory⟩]

/-- The function `TCGen5MMAOp::verifyDims`; `none` when a subscript is out of
range. -/
def TCGen5MMAOp.verifyDims (op : TCGen5MMAOp) : Option Bool := do
  let aShape := op.a.shape
  let bShape := op.b.shape
  let lhs ← aShape[sizeSub aShape.length 1]?
  let rhs ← bShape[sizeSub aShape.length 2]?
  pure (lhs == rhs)

/-! ## TCGen5MMAScaledOp -/

/-- Modelled from the spec: the declared element format of a scaled operand
(`ScaleDotElemType`); the code singles out the packed 4-bit format `E2M1`. -/
inductive ScaleDotElemType where
  | E4M3
  | E5M2
  | E2M3
  | E3M2
  | E2M1
  | BF16
  | FP16
  deriving DecidableEq, Repr

/-- The TCGen5MMAScaled instruction. -/
structure TCGen5MMAScaledOp where
  token : Bool
  a : MemDescType
  b : MemDescType
  d : MemDescType
  accDep : Option Value
  aScale : MemDescType
  bScale : MemDescType
  aType : ScaleDotElemType
  bType : ScaleDotElemType
  useD : Value
  pred : Value
  barriers : List Value
  barrierPreds : List Value
  isAsync : Bool
  deriving DecidableEq, Repr

/-- The function `TCGen5MMAScaledOp::verify`. -/
def TCGen5MMAScaledOp.verify (op : TCGen5MMAScaledOp) : Except String Unit :=
  if !op.isAsync && !op.barriers.isEmpty then
    .error "The op is synchronous but a barrier is present."
  else
    .ok ()

/-- The function `TCGen5MMAScaledOp::getEffects`. -/
def TCGen5MMAScaledOp.getEffects (op : TCGen5MMAScaledOp) : List EffectInstance :=
  let effects : List EffectInstance := []
  let effects :=
    if notKnownZero op.useD then
      effects ++ [⟨.Read, .operandD, .TensorMemory⟩]
    else effects
  let effects := effects ++ [⟨.Write, .operandD, .TensorMemory⟩]
  let effects :=
    if op.a.memorySpace == .Shared then
      effects ++ [⟨.Read, .operandA, .SharedMemory⟩]
    else
      effects ++ [⟨.Read, .operandA, .TensorMemory⟩]
  let effects := effects ++ [⟨.Read, .operandB, .SharedMemory⟩]
  let effects := effects ++ [⟨.Read, .operandAScale, .TensorMemory⟩]
  effects ++ [⟨.Read, .operandBScale, .TensorMemory⟩]

/-- The result of `dyn_cast<NVMMASharedEncodingAttr>(enc)`, as far as the
callers read it: `none` when the attribute is absent and `dyn_cast` asserts,
`some none` for the null result on an encoding of another variant, and
`some (some t)` with `t` what `getTransposed()` returns. -/
def sharedLayoutTransposed : Option Encoding → Option (Option Bool)
  | none => none
  | some (.NVMMAShared transposed _ _) => some (some transposed)
  | some _ => some none

/-- The function `TCGen5MMAScaledOp::verifyDims`; `none` when a subscript is
out of range. `aKdim` and `bKdim` are `int64_t`. -/
def TCGen5MMAScaledOp.verifyDims (op : TCGen5MMAScaledOp) : Option Bool := do
  let aShape := op.a.shape
  let bShape := op.b.shape
  let aSharedLayout ← sharedLayoutTransposed op.a.encoding
  let transA :=
    match aSharedLayout with
    | some transposed => transposed
    | none => false
  let bSharedLayout ← sharedLayoutTransposed op.b.encoding
  let transB :=
    match bSharedLayout with
    | some transposed => !transposed
    | none => false
  let aKdim ← aShape[sizeSub aShape.length 1]?
  let bKdim ← bShape[sizeSub aShape.length 2]?
  let aKdim := if op.aType == .E2M1 && !transA then wrap64 (aKdim * 2) else aKdim
  let bKdim := if op.bType == .E2M1 && !transB then wrap64 (bKdim * 2) else bKdim
  pure (aKdim == bKdim)

/-- The function `TCGen5MMAScaledOp::verifyOutputDims`; `none` when a subscript
is out of range. `oMdim` and `oNdim` are `int64_t`, `aMdim` and `bNdim` are
declared `int`, so the dimensions of A and B are narrowed to 32 bits. -/
def TCGen5MMAScaledOp.verifyOutputDims (op : TCGen5MMAScaledOp) : Option Bool := do
  let aShape := op.a.shape
  let bShape := op.b.shape
  let cShape := op.d.shape
  let oMdim ← cShape[sizeSub cShape.length 2]?
  let oNdim ← cShape[sizeSub cShape.length 1]?
  let aMdim ← (aShape[sizeSub aShape.length 2]?).map wrap32
  let bNdim ← (bShape[sizeSub bShape.length 1]?).map wrap32
  let aSharedLayout ← sharedLayoutTransposed op.a.encoding
  let transA :=
    match aSharedLayout with
    | some transposed => transposed
    | none => false
  let bSharedLayout ← sharedLayoutTransposed op.b.encoding
  let transB :=
    match bSharedLayout with
    | some transposed => !transposed
    | none => false
  let aMdim := if op.aType == .E2M1 && transA then wrap32 (aMdim * 2) else aMdim
  let bNdim := if op.bType == .E2M1 && transB then wrap32 (bNdim * 2) else bNdim
  if aMdim != oMdim || bNdim != oNdim then
    pure false
  else
    pure true

/-! ## TMEMAllocOp -/

/-- The TMEMAlloc instruction: its result type, the type of the optional
initial-value operand `src` and the names of the attributes attached to the
operation. -/
structure TMEMAllocOp where
  resultType : MemDescType
  src : Option RankedTensorType
  attrs : List String
  deriving DecidableEq, Repr

/-- The query `op->hasAttr(name)`. -/
def TMEMAllocOp.hasAttr (op : TMEMAllocOp) (name : String) : Bool :=
  op.attrs.contains name

/-- The function `TMEMAllocOp::getEffects`. -/
def TMEMAllocOp.getEffects (op : TMEMAllocOp) : List EffectInstance :=
  if !op.resultType.mutableMemory && !op.hasAttr "tensor_memory_col_offset" then
    []
  else
    let effects : List EffectInstance := [⟨.Allocate, .opResult 0, .TensorMemory⟩]
    if op.src.isSome then
      effects ++ [⟨.Write, .opResult 0, .TensorMemory⟩]
    else
      effects

/-! ## Rules and sets named by the specification -/

/-- Rules one to seven of `WarpGroupDotOp::verify` (result layout, layouts of A
and B, number of warps, rank and divisibility of the result shape per CTA), that
is every rule other than the element-type rule and the imprecise-accumulation
rule. -/
def WarpGroupDotOp.layoutAndShapeRulesHold (host : Host) (op : WarpGroupDotOp) : Prop :=
  isHopperNvidiaMma op.d.encoding = some true ∧
  (isNVMMAShared op.a.getEncoding = some true ∨ isDotOperand op.a.getEncoding = some true) ∧
  isNVMMAShared op.b.getEncoding = some true ∧
  (4 : Int) ∣ host.lookupNumWarps ∧
  ∃ m n, host.getShapePerCTA op.d = [m, n] ∧ (64 : Int) ∣ m ∧ (8 : Int) ∣ n

/-- The set of element types named by the specification:
F8E5M2, F8E4M3FN, 8-bit integer, F16, BF16, F32. -/
def specElemTypeSet : List ElemType :=
  [.Float8E5M2, .Float8E4M3FN, .Integer 8, .F16, .BF16, .F32]

/-- Transposition of operand A in the words of the specification: the
transposed flag of its NVMMA-shared encoding; an operand without such an
encoding is not transposed. -/
def specTransposedA : Option Encoding → Bool
  | some (.NVMMAShared transposed _ _) => transposed
  | _ => false

/-- Transposition of operand B in the words of the specification: the sense is
inverted, B is transposed when the transposed flag of its NVMMA-shared encoding
is not set; an operand without such an encoding is not transposed. -/
def specTransposedB : Option Encoding → Bool
  | some (.NVMMAShared transposed _ _) => !transposed
  | _ => false

/-- An M or N dimension in the words of the specification: doubled exactly
when the element format is E2M1 and the operand is transposed. -/
def specOutputDim (dim : Int) (format : ScaleDotElemType) (transposed : Bool) : Int :=
  if format = .E2M1 ∧ transposed = true then 2 * dim else dim

/-! ## Concrete instructions -/

/-- A host with four warps and a single CTA, so that the shape per CTA is the
shape. -/
def singleCTAHost : Host := ⟨4, fun ty => ty.shape⟩

/-- An unswizzled, untransposed NVMMA-shared layout. -/
def plainShared : Option Encoding := some (.NVMMAShared false false 0)

/-- A WarpGroupDot instruction with shared-memory operands of element type
`aElem`, a Hopper result of the given shape and element type `dElem`. -/
def wgmmaExample (shape : List Int) (aElem dElem : ElemType) (maxAcc : Nat) :
    WarpGroupDotOp where
  a := .memDesc ⟨[64, 16], aElem, plainShared, .Shared, false⟩
  b := .memDesc ⟨[16, 8], aElem, plainShared, .Shared, false⟩
  d := ⟨shape, dElem, some (.NvidiaMma true)⟩
  maxNumImpreciseAcc := maxAcc

/-- A WarpGroupDot instruction whose operands have the given shapes. -/
def wgmmaWithShapes (aShape bShape : List Int) : WarpGroupDotOp where
  a := .memDesc ⟨aShape, .F16, plainShared, .Shared, false⟩
  b := .memDesc ⟨bShape, .F16, plainShared, .Shared, false⟩
  d := ⟨[64, 8], .F32, some (.NvidiaMma true)⟩
  maxNumImpreciseAcc := 0

/-- A tensor-memory accumulator descriptor. -/
def tmemAcc (shape : List Int) : MemDescType :=
  ⟨shape, .F32, some (.TensorMemory 128 128 true 1 1), .TensorMemory, true⟩

/-- A shared-memory operand descriptor of 8-bit storage elements. -/
def sharedOperand (shape : List Int) (encoding : Option Encoding) : MemDescType :=
  ⟨shape, .Integer 8, encoding, .Shared, false⟩

/-- A TCGen5MMA instruction with the given operand types. -/
def mmaExample (a b d : MemDescType) (useD : Value) : TCGen5MMAOp where
  token := false
  a := a
  b := b
  d := d
  accDep := none
  useD := useD
  pred := ⟨1, none⟩
  barriers := []
  barrierPreds := []
  isAsync := false
  twoCTAs := false

/-- A TCGen5MMAScaled instruction with the given operand types and formats. -/
def scaledExample (a b d : MemDescType) (aType bType : ScaleDotElemType) (useD : Value) :
    TCGen5MMAScaledOp where
  token := false
  a := a
  b := b
  d := d
  accDep := none
  aScale := ⟨[128, 4], .Integer 8, some .TensorMemoryScales, .TensorMemory, false⟩
  bScale := ⟨[256, 4], .Integer 8, some .TensorMemoryScales, .TensorMemory, false⟩
  aType := aType
  bType := bType
  useD := useD
  pred := ⟨1, none⟩
  barriers := []
  barrierPreds := []
  isAsync := false

/-! ## Builders of TCGen5MMAOp and TCGen5MMAScaledOp -/

/-- The convenience builder `TCGen5MMAOp::build` of lines 316-326: the
instruction it leaves in the operation state. `token` tells whether the token
type is present, `builder.getUnitAttr()` sets a unit attribute and `UnitAttr()`
leaves it unset. -/
def TCGen5MMAOp.build (token : Bool) (a b d : MemDescType) (accDep : Option Value)
    (useD pred : Value) (useTwoCTAs : Bool) (barriers barrierPreds : List Value)
    (isAsync : Bool) : TCGen5MMAOp :=
  let isAsync := if !barriers.isEmpty then true else isAsync
  { token := token, a := a, b := b, d := d, accDep := accDep, useD := useD, pred := pred,
    barriers := barriers, barrierPreds := barrierPreds,
    isAsync := if isAsync then true else false,
    twoCTAs := if useTwoCTAs then true else false }

/-- The convenience builder `TCGen5MMAScaledOp::build` of lines 479-493. -/
def TCGen5MMAScaledOp.build (token : Bool) (a b d : MemDescType) (accDep : Option Value)
    (aScale bScale : MemDescType) (aType bType : ScaleDotElemType) (useD pred : Value)
    (barriers barrierPreds : List Value) (isAsync : Bool) : TCGen5MMAScaledOp :=
  let isAsync := if !barriers.isEmpty then true else isAsync
  { token := token, a := a, b := b, d := d, accDep := accDep, aScale := aScale,
    bScale := bScale, aType := aType, bType := bType, useD := useD, pred := pred,
    barriers := barriers, barrierPreds := barrierPreds,
    isAsync := if isAsync then true else false }

/-! ## TMEMSubSliceOp -/

/-- The parameters of a `TensorMemoryEncodingAttr`, as its accessors
`getBlockM()`, `getBlockN()`, `getUnpacked()`, `getCTASplitM()`,
`getCTASplitN()` return them. -/
structure TensorMemoryEncodingAttr where
  blockM : Nat
  blockN : Nat
  unpacked : Bool
  ctaSplitM : Nat
  ctaSplitN : Nat
  deriving DecidableEq, Repr

/-- Modelled from the spec: `dyn_cast<TensorMemoryEncodingAttr>(enc)`; `none`
is the null result, also for an absent encoding. -/
def dynCastTensorMemoryEncoding : Option Encoding → Option TensorMemoryEncodingAttr
  | some (.TensorMemory blockM blockN unpacked ctaSplitM ctaSplitN) =>
    some ⟨blockM, blockN, unpacked, ctaSplitM, ctaSplitN⟩
  | _ => none

/-- The attribute `TensorMemoryEncodingAttr::get(ctx, blockM, blockN, unpacked,
ctaSplitM, ctaSplitN)` as an encoding. -/
def TensorMemoryEncodingAttr.toEncoding (e : TensorMemoryEncodingAttr) : Encoding :=
  .TensorMemory e.blockM e.blockN e.unpacked e.ctaSplitM e.ctaSplitN

/-- The TMEMSubSlice instruction: the type of the operand `src`, the type of
the result and the attribute `N` (the offset). -/
structure TMEMSubSliceOp where
  src : MemDescType
  result : MemDescType
  offset : Int
  deriving DecidableEq, Repr

/-- The function `TMEMSubSliceOp::verify`. The block-size message ends in the
decimal rendering of `getBlockM()`. -/
def TMEMSubSliceOp.verify (op : TMEMSubSliceOp) : Except String Unit :=
  let srcTy := op.src
  match dynCastTensorMemoryEncoding srcTy.encoding with
  | none => .error "The source must be a tensor memory buffer."
  | some encoding =>
    if !([64, 128].contains encoding.blockM) then
      .error ("The source tensor memory descriptor must have a 128xN or 64xN layout, got block_m="
        ++ toString encoding.blockM)
    else
      let dstTy := op.result
      match dynCastTensorMemoryEncoding dstTy.encoding with
      | none => .error "The destination must be a tensor memory buffer."
      | some dstEncoding =>
        if dstEncoding.blockM != encoding.blockM ||
            dstEncoding.ctaSplitM != encoding.ctaSplitM ||
            dstEncoding.ctaSplitN != encoding.ctaSplitN ||
            dstEncoding.unpacked != encoding.unpacked then
          .error "The destination must have the same block size and CTASplit size as the source."
        else
          .ok ()

/-- Conversion of an `int` to `unsigned`: the value modulo `2 ^ 32`. -/
def intToUnsigned (x : Int) : Nat := (x % 2 ^ 32).toNat

/-- The function `TMEMSubSliceOp::build` of lines 647-662: the instruction it
leaves in the operation state; `none` when `cast<TensorMemoryEncodingAttr>`
asserts or `shape.back()` is taken of an empty shape. `offset` and `size` are
`int` values. -/
def TMEMSubSliceOp.build (alloc : MemDescType) (offset size : Int) : Option TMEMSubSliceOp :=
  let allocTy := alloc
  let shape := allocTy.shape
  if shape.isEmpty then none
  else
    let shape := shape.dropLast ++ [size]
    match dynCastTensorMemoryEncoding allocTy.encoding with
    | none => none
    | some encoding =>
      let newBlockN := min encoding.blockN (intToUnsigned size)
      let newEncoding : TensorMemoryEncodingAttr :=
        ⟨encoding.blockM, newBlockN, encoding.unpacked, encoding.ctaSplitM, encoding.ctaSplitN⟩
      let subsliceType : MemDescType :=
        ⟨shape, allocTy.elementType, some newEncoding.toEncoding, allocTy.memorySpace,
          allocTy.mutableMemory⟩
      some ⟨alloc, subsliceType, offset⟩

/-! ## TensormapCreateOp -/

/-- The TensormapCreate instruction: its four variadic operand lists. -/
structure TensormapCreateOp where
  boxDim : List Value
  globalDim : List Value
  globalStride : List Value
  elementStride : List Value
  deriving DecidableEq, Repr

/-- The function `TensormapCreateOp::verify`. The sizes are `size_t`; an operand
list is far shorter than `2 ^ 64`, so `size() + 1` is the plain sum, while
`rank - 1` is the `size_t` difference. -/
def TensormapCreateOp.verify (op : TensormapCreateOp) : Except String Unit :=
  let rank := op.boxDim.length
  if op.globalDim.length ≠ rank then
    .error ("Rank mismatch for global dim. Got " ++ toString op.globalDim.length ++
      " but expected " ++ toString rank)
  else if op.globalStride.length + 1 ≠ rank then
    .error ("Rank mismatch for global stride. Got " ++ toString op.globalStride.length ++
      " but expected " ++ toString (sizeSub rank 1))
  else if op.elementStride.length ≠ rank then
    .error ("Rank mismatch for element stride. Got " ++ toString op.elementStride.length ++
      " but expected " ++ toString rank)
  else
    .ok ()

/-! ## Textual micro-grammars -/

/-- Modelled from the spec: the tokens of the textual form that the two custom
grammars of section 6 are made of: `,`, `[`, `]`, an SSA value name, and any
other token. The lexer of the hosting framework is not part of the sources. -/
inductive Tok where
  | comma
  | lSquare
  | rSquare
  | ssa (name : Nat)
  | other (tag : Nat)
  deriving DecidableEq, Repr

/-- Modelled from the spec: `OpAsmParser::parseOptionalComma`, on the remaining
input: the input after the comma when there is one. -/
def parseOptionalComma : List Tok → Option (List Tok)
  | .comma :: rest => some rest
  | _ => none

/-- Modelled from the spec: `OpAsmParser::parseOptionalLSquare`. -/
def parseOptionalLSquare : List Tok → Option (List Tok)
  | .lSquare :: rest => some rest
  | _ => none

/-- Modelled from the spec: `OpAsmParser::parseOptionalRSquare`. -/
def parseOptionalRSquare : List Tok → Option (List Tok)
  | .rSquare :: rest => some rest
  | _ => none

/-- Modelled from the spec: `OpAsmParser::parseLSquare`; `none` is failure. -/
def parseLSquare : List Tok → Option (List Tok)
  | .lSquare :: rest => some rest
  | _ => none

/-- Modelled from the spec: `OpAsmParser::parseRSquare`; `none` is failure. -/
def parseRSquare : List Tok → Option (List Tok)
  | .rSquare :: rest => some rest
  | _ => none

/-- Modelled from the spec: `OpAsmParser::parseOperand`: the name of the
unresolved operand and the remaining input; `none` is failure. -/
def parseOperand : List Tok → Option (Nat × List Tok)
  | .ssa name :: rest => some (name, rest)
  | _ => none

/-- Modelled from the spec: what `p << value` prints for an SSA value: its
name. -/
def printValue (v : Value) : List Tok := [.ssa v.id]

/-- The loop of `parseBarriersAndPreds`, lines 221-226, run for at most `fuel`
iterations on the remaining input; the result is the two operand lists and the
remaining input, `none` is `failure()`. -/
def parseBarriersAndPredsLoop :
    Nat → List Tok → List Nat → List Nat → Option (List Nat × List Nat × List Tok)
  | 0, _, _, _ => none
  | fuel + 1, input, barriers, preds =>
    match parseOptionalComma input with
    | none => some (barriers, preds, input)
    | some input =>
      match parseOperand input with
      | none => none
      | some (barrier, input) =>
        match parseLSquare input with
        | none => none
        | some input =>
          match parseOperand input with
          | none => none
          | some (pred, input) =>
            match parseRSquare input with
            | none => none
            | some input =>
              parseBarriersAndPredsLoop fuel input (barriers ++ [barrier]) (preds ++ [pred])

/-- The function `parseBarriersAndPreds`, started on empty operand lists. Every
iteration consumes a token, so one iteration more than the input has tokens is
enough. -/
def parseBarriersAndPreds (input : List Tok) : Option (List Nat × List Nat × List Tok) :=
  parseBarriersAndPredsLoop (input.length + 1) input [] []

/-- The body of the loop of `printBarriersAndPreds` over the zipped ranges. -/
def printBarrierPredPairs : List (Value × Value) → List Tok
  | [] => []
  | (barrier, pred) :: rest =>
    [.comma] ++ printValue barrier ++ [.lSquare] ++ printValue pred ++ [.rSquare] ++
      printBarrierPredPairs rest

/-- The function `printBarriersAndPreds`: the tokens it prints; `none` when the
assertion `barriers.size() == preds.size()` fails. -/
def printBarriersAndPreds (barriers preds : List Value) : Option (List Tok) :=
  if barriers.length ≠ preds.length then none
  else some (printBarrierPredPairs (barriers.zip preds))

/-- The function `parseToken`, started with `dep` empty and `token` null: the
dependency operand, whether the token type was set, and the remaining input;
`none` is `failure()`. -/
def parseToken (input : List Tok) : Option (Option Nat × Bool × List Tok) :=
  match parseOptionalLSquare input with
  | none => some (none, false, input)
  | some input =>
    let token := true
    match parseOptionalRSquare input with
    | some input => some (none, token, input)
    | none =>
      match parseOperand input with
      | none => none
      | some (dep, input) =>
        match parseRSquare input with
        | none => none
        | some input => some (some dep, token, input)

/-- The function `printToken`: the tokens it prints for the dependency operand
`dep` (absent when null) and the token type (absent when `token` is false). -/
def printToken (dep : Option Value) (token : Bool) : List Tok :=
  if !token then []
  else
    [.lSquare] ++
      (match dep with
        | some d => printValue d
        | none => []) ++
      [.rSquare]

/-! ## WarpGroupDotOp: effects -/

/-- The function `WarpGroupDotOp::getEffects`. -/
def WarpGroupDotOp.getEffects (op : WarpGroupDotOp) : List EffectInstance :=
  let effects : List EffectInstance := []
  let effects :=
    if op.a.isMemDesc then effects ++ [⟨.Read, .operandA, .SharedMemory⟩] else effects
  let effects :=
    if op.b.isMemDesc then effects ++ [⟨.Read, .operandB, .SharedMemory⟩] else effects
  effects

/-! ## Barrier operations and TMA copy -/

/-- The barrier operations InitBarrier, InvalBarrier, BarrierExpect and
WaitBarrier as far as their verifiers read them: the type of the operand
`alloc`. -/
structure InitBarrierOp where
  alloc : MemDescType
  deriving DecidableEq, Repr

/-- The InvalBarrier instruction. -/
structure InvalBarrierOp where
  alloc : MemDescType
  deriving DecidableEq, Repr

/-- The BarrierExpect instruction. -/
structure BarrierExpectOp where
  alloc : MemDescType
  deriving DecidableEq, Repr

/-- The WaitBarrier instruction. -/
structure WaitBarrierOp where
  alloc : MemDescType
  deriving DecidableEq, Repr

/-- The ArriveBarrier instruction: the type of `alloc` and the attribute
`count` (a `uint32_t`). -/
structure ArriveBarrierOp where
  alloc : MemDescType
  count : Nat
  deriving DecidableEq, Repr

/-- The function `InitBarrierOp::verify`; `verifyBarrierType` is the shared
barrier-type check of `Transforms/Utility.h`, which is not part of the
sources. -/
def InitBarrierOp.verify (verifyBarrierType : MemDescType → Except String Unit)
    (op : InitBarrierOp) : Except String Unit :=
  match verifyBarrierType op.alloc with
  | .error e => .error e
  | .ok _ => .ok ()

/-- The function `InvalBarrierOp::verify`. -/
def InvalBarrierOp.verify (verifyBarrierType : MemDescType → Except String Unit)
    (op : InvalBarrierOp) : Except String Unit :=
  match verifyBarrierType op.alloc with
  | .error e => .error e
  | .ok _ => .ok ()

/-- The function `BarrierExpectOp::verify`. -/
def BarrierExpectOp.verify (verifyBarrierType : MemDescType → Except String Unit)
    (op : BarrierExpectOp) : Except String Unit :=
  match verifyBarrierType op.alloc with
  | .error e => .error e
  | .ok _ => .ok ()

/-- The function `WaitBarrierOp::verify`. -/
def WaitBarrierOp.verify (verifyBarrierType : MemDescType → Except String Unit)
    (op : WaitBarrierOp) : Except String Unit :=
  match verifyBarrierType op.alloc with
  | .error e => .error e
  | .ok _ => .ok ()

/-- The function `ArriveBarrierOp::verify`. -/
def ArriveBarrierOp.verify (verifyBarrierType : MemDescType → Except String Unit)
    (op : ArriveBarrierOp) : Except String Unit :=
  match verifyBarrierType op.alloc with
  | .error e => .error e
  | .ok _ =>
    if op.count < 1 then
      .error "count must be greater than or equal to 1"
    else
      .ok ()

/-- The AsyncTMACopyGlobalToLocal instruction: the type of the barrier operand,
the coordinate operands and the type of the destination `result`. -/
structure AsyncTMACopyGlobalToLocalOp where
  barrier : MemDescType
  coord : List Value
  result : MemDescType
  deriving DecidableEq, Repr

/-- The function `AsyncTMACopyGlobalToLocalOp::verify`. -/
def AsyncTMACopyGlobalToLocalOp.verify (verifyBarrierType : MemDescType → Except String Unit)
    (op : AsyncTMACopyGlobalToLocalOp) : Except String Unit :=
  match verifyBarrierType op.barrier with
  | .error e => .error e
  | .ok _ =>
    if op.coord.length < 1 || op.coord.length > 5 then
      .error "TMA copies must have between 1 and 5 coordinates"
    else if !op.result.mutableMemory then
      .error "Cannot store into immutable memory"
    else
      .ok ()

/-! ## Tensor-memory load, store and copy -/

/-- The test `isa<TensorMemorySpaceAttr>(space)`. -/
def MemorySpace.isTensorMemory : MemorySpace → Bool
  | .TensorMemory => true
  | _ => false

/-- The test `isa<SharedMemorySpaceAttr>(space)`. -/
def MemorySpace.isShared : MemorySpace → Bool
  | .Shared => true
  | _ => false

/-- Modelled from the spec: the dynamic type test
`isa<TensorMemoryEncodingAttr>`; an absent encoding is of no variant. -/
def isTensorMemoryEncoding : Option Encoding → Bool
  | some (.TensorMemory _ _ _ _ _) => true
  | _ => false

/-- Modelled from the spec: the dynamic type test
`isa<TensorMemoryScalesEncodingAttr>`. -/
def isTensorMemoryScalesEncoding : Option Encoding → Bool
  | some .TensorMemoryScales => true
  | _ => false

/-- Modelled from the spec: `dyn_cast<DistributedEncodingTrait>(enc)` on a
present encoding: the layouts of register tensors (the opaque distributed
encodings, the NVIDIA MMA encoding and the dot-operand encoding) implement the
trait, the memory layouts do not. -/
def dynCastDistributedEncoding : Encoding → Option Encoding
  | .Distributed tag => some (.Distributed tag)
  | .NvidiaMma isHopper => some (.NvidiaMma isHopper)
  | .DotOperand => some .DotOperand
  | _ => none

/-- Modelled from the spec: the functions of the hosting framework that the
tensor-memory verifiers call and that are not part of the sources:
`getTmemCompatibleLayouts(op, type, memdesc)`, `areLayoutsEquivalent(shape,
layout, enc)` and `verifyMemoryOpTypes(op, srcTy, dstTy)`. -/
structure TMEMHost where
  getTmemCompatibleLayouts : RankedTensorType → MemDescType → List Encoding
  areLayoutsEquivalent : List Int → Encoding → Encoding → Bool
  verifyMemoryOpTypes : TensorOrMemDesc → TensorOrMemDesc → Except String Unit

/-- The function `verifyTMEMOperand` of lines 496-523. The notes attached to
the last diagnostic are not part of the returned message. -/
def verifyTMEMOperand (host : TMEMHost) (type : RankedTensorType) (memdesc : MemDescType)
    (regName : String) : Except String Unit :=
  if type.shape.length ≠ 2 then
    .error (regName ++ " must be a 2D tensor")
  else
    match type.encoding with
    | none => .ok ()
    | some encoding =>
      match dynCastDistributedEncoding encoding with
      | none => .error (regName ++ " does not have an distributed encoding")
      | some enc =>
        let layouts := host.getTmemCompatibleLayouts type memdesc
        if layouts.isEmpty then
          .error (regName ++ " does not have any TMEM compatible layouts")
        else if !(layouts.any fun layout => host.areLayoutsEquivalent type.shape layout enc) then
          .error (regName ++ " layout is not TMEM compatible")
        else
          .ok ()

/-- The TMEMStore instruction: the type of the destination `dst` and of the
register operand `src`. -/
structure TMEMStoreOp where
  dst : MemDescType
  src : RankedTensorType
  deriving DecidableEq, Repr

/-- The memory-space check and the encoding check of `TMEMStoreOp::verify`,
lines 526-531, on the type of the destination. -/
def TMEMStoreOp.verifyMemorySide (dstTy : MemDescType) : Except String Unit :=
  if !dstTy.memorySpace.isTensorMemory then
    .error "destination must be a tensor memory buffer."
  else if !(isTensorMemoryEncoding dstTy.encoding ||
      isTensorMemoryScalesEncoding dstTy.encoding) then
    .error "should use tensor memory encoding."
  else
    .ok ()

/-- The function `TMEMStoreOp::verify`. -/
def TMEMStoreOp.verify (host : TMEMHost) (op : TMEMStoreOp) : Except String Unit :=
  match TMEMStoreOp.verifyMemorySide op.dst with
  | .error e => .error e
  | .ok _ =>
    if !op.dst.mutableMemory then
      .error "Cannot store into an immutable alloc"
    else
      match verifyTMEMOperand host op.src op.dst "source" with
      | .error e => .error e
      | .ok _ => host.verifyMemoryOpTypes (.tensor op.src) (.memDesc op.dst)

/-- The TMEMLoad instruction: the type of the source `src` and the type of the
result. -/
structure TMEMLoadOp where
  src : MemDescType
  result : RankedTensorType
  deriving DecidableEq, Repr

/-- The memory-space check and the encoding check of `TMEMLoadOp::verify`,
lines 544-549, on the type of the source. -/
def TMEMLoadOp.verifyMemorySide (srcTy : MemDescType) : Except String Unit :=
  if !srcTy.memorySpace.isTensorMemory then
    .error "source must be a tensor memory buffer."
  else if !isTensorMemoryEncoding srcTy.encoding then
    .error "should use tensor memory encoding."
  else
    .ok ()

/-- The function `TMEMLoadOp::verify`. -/
def TMEMLoadOp.verify (host : TMEMHost) (op : TMEMLoadOp) : Except String Unit :=
  match TMEMLoadOp.verifyMemorySide op.src with
  | .error e => .error e
  | .ok _ =>
    match verifyTMEMOperand host op.result op.src "result" with
    | .error e => .error e
    | .ok _ => host.verifyMemoryOpTypes (.memDesc op.src) (.tensor op.result)

/-- The parameters of an `NVMMASharedEncodingAttr`, as its accessors
`getTransposed()`, `getFp4Padded()`, `getSwizzlingByteWidth()` return them. -/
structure NVMMASharedEncodingAttr where
  transposed : Bool
  fp4Padded : Bool
  swizzlingByteWidth : Nat
  deriving DecidableEq, Repr

/-- Modelled from the spec: the asserting conversion
`cast<NVMMASharedEncodingAttr>(enc)`; `none` stands for the failed assertion,
which ends the process, on an encoding that is absent or of another variant. -/
def castNVMMAShared : Option Encoding → Option NVMMASharedEncodingAttr
  | some (.NVMMAShared transposed fp4Padded swizzlingByteWidth) =>
    some ⟨transposed, fp4Padded, swizzlingByteWidth⟩
  | _ => none

/-- The TMEMCopy instruction: the types of `src` and `dst` and the type of the
optional operand `barrier`. -/
structure TMEMCopyOp where
  src : MemDescType
  dst : MemDescType
  barrier : Option MemDescType
  deriving DecidableEq, Repr

/-- The function `TMEMCopyOp::verify`; `none` when `cast` asserts or when
`isa` of line 591 is applied to an absent encoding, otherwise the returned
`LogicalResult`. `isInnermostContiguous` is a function of the
hosting framework that is not part of the sources. A successful `cast` never
yields null, so the disjunct `!sharedEnc` of line 607 is false. -/
def TMEMCopyOp.verify (isInnermostContiguous : MemDescType → Nat → Bool) (op : TMEMCopyOp) :
    Option (Except String Unit) :=
  if !op.src.memorySpace.isShared then
    some (.error "The source must be a shared memory buffer")
  else if op.dst.encoding.isNone then
    none
  else if !(isTensorMemoryEncoding op.dst.encoding ||
      isTensorMemoryScalesEncoding op.dst.encoding) then
    some (.error "The destination must be a tensor memory buffer.")
  else if (match op.barrier with
      | some barrier => !barrier.memorySpace.isShared
      | none => false) then
    some (.error "The optional barrier should be a shared memory buffer")
  else if !op.dst.mutableMemory then
    some (.error "Cannot copy into an immutable alloc")
  else
    let srcTy := op.src
    match castNVMMAShared srcTy.encoding with
    | none => none
    | some sharedEnc =>
      if false || sharedEnc.transposed || sharedEnc.fp4Padded ||
          sharedEnc.swizzlingByteWidth != 0 then
        some (.error "The source should not have swizzling applied for now")
      else if !isInnermostContiguous srcTy 512 then
        some (.error "The source must be in a row-major order.")
      else
        some (.ok ())

/-! ## Invariants and examples for the later claims -/

/-- Modelled from the spec: the encodings a memory space accepts, section 3:
Shared accepts the NVMMA-shared encoding, TensorMemory accepts the
tensor-memory and the tensor-memory-scales encoding, Distributed accepts the
distributed encodings. -/
def MemorySpace.accepts : MemorySpace → Encoding → Bool
  | .Shared, .NVMMAShared _ _ _ => true
  | .TensorMemory, .TensorMemory _ _ _ _ _ => true
  | .TensorMemory, .TensorMemoryScales => true
  | .Distributed, .Distributed _ => true
  | .Distributed, .NvidiaMma _ => true
  | .Distributed, .DotOperand => true
  | _, _ => false

/-- Modelled from the spec: the invariant of a memory descriptor, section 3:
the concrete variant of its encoding is one that its memory space accepts. The
declaration of `MemDescType`, which enforces it, is not part of the sources. -/
def MemDescType.encodingAccepted (m : MemDescType) : Bool :=
  match m.encoding with
  | none => true
  | some e => m.memorySpace.accepts e

/-- A barrier-type check used to instantiate the shared check: it accepts the
descriptors in Shared memory whose shape is `[1]`. -/
def oneElementSharedCheck (ty : MemDescType) : Except String Unit :=
  if ty.memorySpace.isShared && ty.shape == [1] then .ok ()
  else .error "barrier allocation must be a one-element descriptor in shared memory"

/-- A barrier descriptor accepted by `oneElementSharedCheck`. -/
def barrierDesc : MemDescType := ⟨[1], .Integer 64, none, .Shared, true⟩

/-- A tensor-memory descriptor with the given encoding. -/
def tmemDesc (shape : List Int) (encoding : Encoding) (mutableMemory : Bool) : MemDescType :=
  ⟨shape, .F32, some encoding, .TensorMemory, mutableMemory⟩

/-- A TMA copy with the given coordinates into a shared buffer of the given
mutability, signalled on `barrierDesc`. -/
def tmaCopyExample (coord : List Value) (mutableMemory : Bool) : AsyncTMACopyGlobalToLocalOp :=
  ⟨barrierDesc, coord, ⟨[64, 64], .F16, plainShared, .Shared, mutableMemory⟩⟩

/-- A contiguity test used to instantiate `isInnermostContiguous`: the innermost
dimension has at least the requested number of elements. -/
def innermostAtLeast (ty : MemDescType) (n : Nat) : Bool :=
  decide ((n : Int) ≤ ty.shape.getLastD 0)

/-- The function `TCGen5MMAOp::addCompletionBarrier`: `pred` is appended to the
barrier predicates, then `barrier` to the barriers. -/
def TCGen5MMAOp.addCompletionBarrier (op : TCGen5MMAOp) (barrier pred : Value) : TCGen5MMAOp :=
  let op := { op with barrierPreds := op.barrierPreds ++ [pred] }
  { op with barriers := op.barriers ++ [barrier] }

/-- The function `TCGen5MMAScaledOp::addCompletionBarrier`. -/
def TCGen5MMAScaledOp.addCompletionBarrier (op : TCGen5MMAScaledOp) (barrier pred : Value) :
    TCGen5MMAScaledOp :=
  let op := { op with barrierPreds := op.barrierPreds ++ [pred] }
  { op with barriers := op.barriers ++ [barrier] }

/-- The test `isa<Float8E5M2Type, Float8E4M3FNType, Float8E5M2FNUZType,
Float8E4M3FNUZType>(ty)`. -/
def ElemType.isAnyFloat8 : ElemType → Bool
  | .Float8E5M2 => true
  | .Float8E4M3FN => true
  | .Float8E5M2FNUZ => true
  | .Float8E4M3FNUZ => true
  | _ => false

/-- The function `WarpGroupDotOp::needsPartialAccumulator`; `none` when the
subscript `getShape()[1]` is out of range. The conjunction is evaluated left to
right, so the shape is read only when the first two conjuncts hold; the
`uint32_t` attribute is compared with the `int64_t` dimension as integers. -/
def WarpGroupDotOp.needsPartialAccumulator (op : WarpGroupDotOp) : Option Bool :=
  let a := op.a
  let d := op.d
  let aTensorTy := a
  let aElTy := a.getElementType
  let isFP8 := aElTy.isAnyFloat8
  let accFP32 := d.elementType.isF32
  let maxNumImpreciseAcc := op.maxNumImpreciseAcc
  if isFP8 && accFP32 then
    (aTensorTy.getShape[1]?).map fun dim => decide ((maxNumImpreciseAcc : Int) ≤ dim)
  else
    some false

/-- A rule on an encoding in the words of the specification: the encoding is
present and of the required variant. -/
def encodingSatisfies (test : Encoding → Bool) : Option Encoding → Bool
  | some e => test e
  | none => false

/-- The nine rules of the specification for a WarpGroupDot instruction, in
their order, each with the message reported when it is violated: (1) Hopper
NVMMA result encoding, (2) NVMMA-shared or dot-operand encoding on A, (3)
NVMMA-shared encoding on B, (4) number of warps divisible by 4, (5) rank 2 of
the result shape per CTA, (6) M divisible by 64, (7) N divisible by 8, (8) the
element-type rule, (9) the imprecise-accumulation rule. -/
def specWgmmaRules (host : Host) (op : WarpGroupDotOp) : List (Bool × String) :=
  [(encodingSatisfies Encoding.isHopperNvidiaMma op.d.encoding,
     "WGMMA result layout must be Hopper NVMMA"),
   (encodingSatisfies Encoding.isNVMMAShared op.a.getEncoding ||
       encodingSatisfies Encoding.isDotOperand op.a.getEncoding,
     "WGMMA A operand must have NVMMA shared or dot layout"),
   (encodingSatisfies Encoding.isNVMMAShared op.b.getEncoding,
     "WGMMA B operand must have NVMMA shared layout"),
   (decide ((4 : Int) ∣ host.lookupNumWarps), "WGMMA requires num_warps to be divisible by 4"),
   (decide ((host.getShapePerCTA op.d).length = 2), "WGMMA result shape must be 2D"),
   (decide ((64 : Int) ∣ (host.getShapePerCTA op.d).getD 0 0),
     "WGMMA result M dimension must be divisible by 64"),
   (decide ((8 : Int) ∣ (host.getShapePerCTA op.d).getD 1 0),
     "WGMMA result N dimension must be divisible by 8"),
   (wgmmaElemTyAllowed op.a.getElementType,
     "WGMMA result element type must be F16, BF16, F32, F8E5M2, F8E4M3FN, or integer type"),
   (!(decide (op.maxNumImpreciseAcc < 32) && op.a.getElementType.isFloat8E5M2OrE4M3FN &&
       op.d.elementType.isF32),
     "Cannot use F32 as the accumulator element type when the max_num_imprecise_acc is less than 32")]

/-- The outcome the specification prescribes for a list of rules: the message
of the first violated rule, success when no rule is violated. -/
def firstViolated : List (Bool × String) → Except String Unit
  | [] => .ok ()
  | (holds, message) :: rest => if holds then firstViolated rest else .error message

/-! ## Concrete instructions for the later claims -/

/-- A synchronous TCGen5MMA instruction without completion barriers. -/
def syncMMA : TCGen5MMAOp :=
  mmaExample (sharedOperand [128, 64] plainShared) (sharedOperand [64, 256] plainShared)
    (tmemAcc [128, 256]) ⟨0, none⟩

/-- A synchronous TCGen5MMAScaled instruction without completion barriers. -/
def syncScaledMMA : TCGen5MMAScaledOp :=
  scaledExample (sharedOperand [128, 64] plainShared) (sharedOperand [64, 256] plainShared)
    (tmemAcc [128, 256]) .E4M3 .E4M3 ⟨0, none⟩

/-- A copy whose source is in Shared memory with the given encoding, into a
mutable tensor-memory buffer, without barrier. -/
def tmemCopyFrom (srcEncoding : Option Encoding) : TMEMCopyOp :=
  ⟨sharedOperand [128, 512] srcEncoding, tmemDesc [128, 4] .TensorMemoryScales true, none⟩

/-- A WarpGroupDot instruction with F8E5M2 operands, 64 columns in A, an F32
accumulator and the given bound on imprecise accumulations. -/
def wgmmaFp8 (maxAcc : Nat) : WarpGroupDotOp where
  a := .memDesc ⟨[64, 64], .Float8E5M2, plainShared, .Shared, false⟩
  b := .memDesc ⟨[64, 8], .Float8E5M2, plainShared, .Shared, false⟩
  d := ⟨[64, 8], .F32, some (.NvidiaMma true)⟩
  maxNumImpreciseAcc := maxAcc

/-- The outcome prescribed for a list of rules is success exactly when every
rule holds. -/
theorem firstViolated_eq_ok_iff (rules : List (Bool × String)) :
    firstViolated rules = .ok () ↔ rules.all (fun r => r.1) = true := by
  induction rules with
  | nil => simp [firstViolated]
  | cons r rs ih =>
    obtain ⟨holds, message⟩ := r
    cases holds <;> simp [firstViolated, ih]

/-- On an instruction whose result, A and B types carry an encoding,
`WarpGroupDotOp::verify` returns, and what it returns is the message of the
first violated rule, or success. -/
theorem WarpGroupDotOp.verify_of_present (host : Host) (op : WarpGroupDotOp)
    (ed ea eb : Encoding) (hd : op.d.encoding = some ed) (ha : op.a.getEncoding = some ea)
    (hb : op.b.getEncoding = some eb) :
    op.verify host = some (firstViolated (specWgmmaRules host op)) := by
  unfold WarpGroupDotOp.verify specWgmmaRules
  simp only [hd, ha, hb, isHopperNvidiaMma, isNVMMAShared, isDotOperand, encodingSatisfies,
    firstViolated, Int.dvd_iff_tmod_eq_zero]
  generalize (host.getShapePerCTA op.d).getD 0 0 = m
  generalize (host.getShapePerCTA op.d).getD 1 0 = n
  generalize (host.getShapePerCTA op.d).length = len
  cases ed.isHopperNvidiaMma
  · rfl
  cases (ea.isNVMMAShared || ea.isDotOperand)
  · rfl
  cases eb.isNVMMAShared
  · rfl
  by_cases h4 : Int.tmod host.lookupNumWarps 4 = 0
  swap
  · simp [h4]
  by_cases h5 : len = 2
  swap
  · simp [h4, h5]
  by_cases h6 : Int.tmod m 64 = 0
  swap
  · simp [h4, h5, h6]
  by_cases h7 : Int.tmod n 8 = 0
  swap
  · simp [h4, h5, h6, h7]
  cases wgmmaElemTyAllowed op.a.getElementType
  · simp [h4, h5, h6, h7]
  cases (decide (op.maxNumImpreciseAcc < 32) && op.a.getElementType.isFloat8E5M2OrE4M3FN &&
      op.d.elementType.isF32) <;> simp [h4, h5, h6, h7]

/-- On an absent encoding of the result, of A once rule one holds, or of B once
rules one and two hold, `WarpGroupDotOp::verify` returns nothing. -/
theorem WarpGroupDotOp.verify_of_absent (host : Host) (op : WarpGroupDotOp) :
    (op.d.encoding = none → op.verify host = none) ∧
    (isHopperNvidiaMma op.d.encoding = some true → op.a.getEncoding = none →
      op.verify host = none) ∧
    (isHopperNvidiaMma op.d.encoding = some true →
      (isNVMMAShared op.a.getEncoding = some true ∨
        isDotOperand op.a.getEncoding = some true) →
      op.b.getEncoding = none → op.verify host = none) := by
  refine ⟨?_, ?_, ?_⟩
  · intro hd
    simp [WarpGroupDotOp.verify, hd, isHopperNvidiaMma]
  · intro h1 ha
    simp [WarpGroupDotOp.verify, h1, ha, isNVMMAShared]
  · intro h1 h2 hb
    rcases ha : op.a.getEncoding with _ | ea
    · rw [ha] at h2
      simp [isNVMMAShared, isDotOperand] at h2
    · rw [ha] at h2
      have h2' : (ea.isNVMMAShared || ea.isDotOperand) = true := by
        simpa [isNVMMAShared, isDotOperand] using h2
      simp [WarpGroupDotOp.verify, h1, ha, hb, isNVMMAShared, isDotOperand, h2']

/-- The shape rules on `getD` are the shape rules on a two-element list. -/
theorem shape_rules_iff (shape : List Int) :
    (shape.length = 2 ∧ (64 : Int) ∣ shape.getD 0 0 ∧ (8 : Int) ∣ shape.getD 1 0) ↔
      ∃ m n, shape = [m, n] ∧ (64 : Int) ∣ m ∧ (8 : Int) ∣ n := by
  rcases shape with _ | ⟨m, _ | ⟨n, _ | ⟨k, t⟩⟩⟩
  · simp
  · simp
  · constructor
    · rintro ⟨_, h1, h2⟩
      exact ⟨m, n, rfl, by simpa using h1, by simpa using h2⟩
    · rintro ⟨m1, n1, heq, h1, h2⟩
      simp only [List.cons.injEq, and_true] at heq
      obtain ⟨rfl, rfl⟩ := heq
      exact ⟨rfl, by simpa using h1, by simpa using h2⟩
  · simp

/-- Success of `WarpGroupDotOp::verify` is the conjunction of its nine rules. -/
theorem WarpGroupDotOp.verify_eq_ok_iff (host : Host) (op : WarpGroupDotOp) :
    op.verify host = some (.ok ()) ↔
      isHopperNvidiaMma op.d.encoding = some true ∧
      (isNVMMAShared op.a.getEncoding = some true ∨
        isDotOperand op.a.getEncoding = some true) ∧
      isNVMMAShared op.b.getEncoding = some true ∧
      (4 : Int) ∣ host.lookupNumWarps ∧
      (∃ m n, host.getShapePerCTA op.d = [m, n] ∧ (64 : Int) ∣ m ∧ (8 : Int) ∣ n) ∧
      wgmmaElemTyAllowed op.a.getElementType = true ∧
      ¬ (op.maxNumImpreciseAcc < 32 ∧ op.a.getElementType.isFloat8E5M2OrE4M3FN = true ∧
          op.d.elementType.isF32 = true) := by
  rcases hd : op.d.encoding with _ | ed
  · simp [WarpGroupDotOp.verify, hd, isHopperNvidiaMma]
  rcases ha : op.a.getEncoding with _ | ea
  · cases hh : ed.isHopperNvidiaMma <;>
      simp [WarpGroupDotOp.verify, hd, ha, isHopperNvidiaMma, isNVMMAShared, isDotOperand, hh]
  rcases hb : op.b.getEncoding with _ | eb
  · cases hh : ed.isHopperNvidiaMma <;> cases hs : ea.isNVMMAShared <;>
      cases ho : ea.isDotOperand <;>
      simp [WarpGroupDotOp.verify, hd, ha, hb, isHopperNvidiaMma, isNVMMAShared, isDotOperand,
        hh, hs, ho]
  rw [WarpGroupDotOp.verify_of_present host op ed ea eb hd ha hb, ← shape_rules_iff]
  have h9 : (!(decide (op.maxNumImpreciseAcc < 32) && op.a.getElementType.isFloat8E5M2OrE4M3FN &&
      op.d.elementType.isF32)) = true ↔
      ¬ (op.maxNumImpreciseAcc < 32 ∧ op.a.getElementType.isFloat8E5M2OrE4M3FN = true ∧
          op.d.elementType.isF32 = true) := by
    cases op.a.getElementType.isFloat8E5M2OrE4M3FN <;> cases op.d.elementType.isF32 <;>
      by_cases h : op.maxNumImpreciseAcc < 32 <;> simp [h]
  simp only [Option.some.injEq, firstViolated_eq_ok_iff, specWgmmaRules, encodingSatisfies, hd,
    ha, hb, isHopperNvidiaMma, isNVMMAShared, isDotOperand, List.all_cons, List.all_nil,
    Bool.and_true, Bool.and_eq_true, decide_eq_true_eq, Bool.or_eq_true, h9]
  tauto

/-- A verifier either succeeds or fails with a message. -/
theorem verify_error_of_ne_ok (r : Except String Unit) (h : r ≠ .ok ()) :
    ∃ msg, r = .error msg := by
  cases r with
  | error e => exact ⟨e, rfl⟩
  | ok u => exact absurd rfl h

/-- On an instruction whose result, A and B types carry an encoding,
`WarpGroupDotOp::verify` returns a failure unless it returns success. -/
theorem WarpGroupDotOp.verify_error_of_present (host : Host) (op : WarpGroupDotOp)
    (hd : op.d.encoding.isSome = true) (ha : op.a.getEncoding.isSome = true)
    (hb : op.b.getEncoding.isSome = true) (hne : op.verify host ≠ some (.ok ())) :
    ∃ msg, op.verify host = some (.error msg) := by
  obtain ⟨ed, hd⟩ := Option.isSome_iff_exists.mp hd
  obtain ⟨ea, ha⟩ := Option.isSome_iff_exists.mp ha
  obtain ⟨eb, hb⟩ := Option.isSome_iff_exists.mp hb
  rw [WarpGroupDotOp.verify_of_present host op ed ea eb hd ha hb] at hne ⊢
  obtain ⟨msg, hmsg⟩ := verify_error_of_ne_ok (firstViolated (specWgmmaRules host op))
    (fun h => hne (congrArg some h))
  exact ⟨msg, congrArg some hmsg⟩

/-- A test that answers on an encoding was applied to a present encoding. -/
theorem encoding_isSome_of_test (enc : Option Encoding) (b : Bool) :
    (isHopperNvidiaMma enc = some b → enc.isSome = true) ∧
    (isNVMMAShared enc = some b → enc.isSome = true) ∧
    (isDotOperand enc = some b → enc.isSome = true) := by
  cases enc <;> simp [isHopperNvidiaMma, isNVMMAShared, isDotOperand]

/-- Under rules one to seven, `WarpGroupDotOp::verify` is decided by the
element-type rule and the imprecise-accumulation rule, in this order. -/
theorem WarpGroupDotOp.verify_of_layoutAndShapeRules (host : Host) (op : WarpGroupDotOp)
    (h : op.layoutAndShapeRulesHold host) :
    op.verify host = some
      (if wgmmaElemTyAllowed op.a.getElementType = false then
        .error "WGMMA result element type must be F16, BF16, F32, F8E5M2, F8E4M3FN, or integer type"
      else if op.maxNumImpreciseAcc < 32 ∧ op.a.getElementType.isFloat8E5M2OrE4M3FN = true ∧
          op.d.elementType.isF32 = true then
        .error "Cannot use F32 as the accumulator element type when the max_num_imprecise_acc is less than 32"
      else .ok ()) := by
  obtain ⟨h1, h2, h3, h4, hshape⟩ := h
  obtain ⟨hlen, h5, h6⟩ := (shape_rules_iff _).mpr hshape
  obtain ⟨ed, hd⟩ := Option.isSome_iff_exists.mp ((encoding_isSome_of_test _ _).1 h1)
  obtain ⟨ea, ha⟩ : ∃ ea, op.a.getEncoding = some ea := by
    rcases h2 with h | h
    · exact Option.isSome_iff_exists.mp ((encoding_isSome_of_test _ _).2.1 h)
    · exact Option.isSome_iff_exists.mp ((encoding_isSome_of_test _ _).2.2 h)
  obtain ⟨eb, hb⟩ := Option.isSome_iff_exists.mp ((encoding_isSome_of_test _ _).2.1 h3)
  rw [WarpGroupDotOp.verify_of_present host op ed ea eb hd ha hb]
  rw [hd] at h1
  rw [ha] at h2
  rw [hb] at h3
  simp only [isHopperNvidiaMma, isNVMMAShared, isDotOperand, Option.some.injEq] at h1 h2 h3
  have h2' : (ea.isNVMMAShared || ea.isDotOperand) = true := by simpa using h2
  simp only [specWgmmaRules, encodingSatisfies, hd, ha, hb, h1, h2', h3, firstViolated, hlen,
    h4, h5, h6, decide_True, if_true]
  cases wgmmaElemTyAllowed op.a.getElementType
  · simp
  · cases op.a.getElementType.isFloat8E5M2OrE4M3FN <;> cases op.d.elementType.isF32 <;>
      by_cases hlt : op.maxNumImpreciseAcc < 32 <;> simp [hlt]

/-! ## WarpGroupDotOp: the claims on `verify` -/

/-- Counterexample to C3 as stated: an instruction with 8-bit integer operands
and a 32-bit integer accumulator satisfies every other rule and passes, although
the element type of its accumulator is outside the set; and an instruction with
an F64 operand A and an F32 accumulator is rejected by the element-type rule,
although the element type of its accumulator is inside the set. -/
theorem C3_accumulator_element_type_counterexample :
    ((wgmmaExample [64, 8] (.Integer 8) (.Integer 32) 0).layoutAndShapeRulesHold singleCTAHost ∧
      (wgmmaExample [64, 8] (.Integer 8) (.Integer 32) 0).d.elementType ∉ specElemTypeSet ∧
      (wgmmaExample [64, 8] (.Integer 8) (.Integer 32) 0).verify singleCTAHost =
        some (.ok ())) ∧
    ((wgmmaExample [64, 8] .F64 .F32 0).layoutAndShapeRulesHold singleCTAHost ∧
      (wgmmaExample [64, 8] .F64 .F32 0).d.elementType ∈ specElemTypeSet ∧
      (wgmmaExample [64, 8] .F64 .F32 0).verify singleCTAHost = some
        (.error "WGMMA result element type must be F16, BF16, F32, F8E5M2, F8E4M3FN, or integer type")) :=
  ⟨⟨⟨rfl, Or.inl rfl, rfl, by decide, 64, 8, rfl, by decide, by decide⟩, by decide, rfl⟩,
   ⟨⟨rfl, Or.inl rfl, rfl, by decide, 64, 8, rfl, by decide, by decide⟩, by decide, rfl⟩⟩

/-- The test of lines 90-92 is membership in the set of the specification. -/
theorem wgmmaElemTyAllowed_iff_mem (ty : ElemType) :
    wgmmaElemTyAllowed ty = true ↔ ty ∈ specElemTypeSet := by
  cases ty <;> simp [wgmmaElemTyAllowed, specElemTypeSet, ElemType.isFloat8E5M2OrE4M3FN,
    ElemType.isInteger, ElemType.isF16, ElemType.isBF16, ElemType.isF32]

/-- C3 (amended): the element-type rule of `WarpGroupDotOp::verify` is a rule on
operand A. On an instruction whose result, A and B types carry an encoding,
verification returns a failure whenever the element type of A is outside
{F8E5M2, F8E4M3FN, 8-bit integer, F16, BF16, F32}; when rules one to seven hold
it fails on the element-type rule exactly when the element type of A is outside
that set; and the element-type rule never rejects an instruction whose operand A
has an element type inside the set. -/
theorem C3_operand_A_element_type (host : Host) (op : WarpGroupDotOp) :
    (op.d.encoding.isSome = true → op.a.getEncoding.isSome = true →
      op.b.getEncoding.isSome = true →
      op.a.getElementType ∉ specElemTypeSet → ∃ msg, op.verify host = some (.error msg)) ∧
    (op.layoutAndShapeRulesHold host →
      (op.verify host = some
        (.error "WGMMA result element type must be F16, BF16, F32, F8E5M2, F8E4M3FN, or integer type") ↔
        op.a.getElementType ∉ specElemTypeSet)) ∧
    (op.a.getElementType ∈ specElemTypeSet → op.verify host ≠ some
        (.error "WGMMA result element type must be F16, BF16, F32, F8E5M2, F8E4M3FN, or integer type")) := by
  refine ⟨?_, ?_, ?_⟩
  · intro hd ha hb hout
    apply WarpGroupDotOp.verify_error_of_present host op hd ha hb
    intro hok
    have h := (WarpGroupDotOp.verify_eq_ok_iff host op).mp hok
    exact hout ((wgmmaElemTyAllowed_iff_mem _).mp h.2.2.2.2.2.1)
  · intro hr
    rw [WarpGroupDotOp.verify_of_layoutAndShapeRules host op hr, ← wgmmaElemTyAllowed_iff_mem]
    by_cases hall : wgmmaElemTyAllowed op.a.getElementType = true
    · simp [hall]
      split_ifs <;> simp
    · simp [hall]
  · intro hin h
    have hall := (wgmmaElemTyAllowed_iff_mem _).mpr hin
    rcases hd : op.d.encoding with _ | ed
    · simp [WarpGroupDotOp.verify, hd, isHopperNvidiaMma] at h
    rcases ha : op.a.getEncoding with _ | ea
    · cases hh : ed.isHopperNvidiaMma <;>
        simp [WarpGroupDotOp.verify, hd, ha, isHopperNvidiaMma, isNVMMAShared, isDotOperand,
          hh] at h
    rcases hb : op.b.getEncoding with _ | eb
    · cases hh : ed.isHopperNvidiaMma <;> cases hs : ea.isNVMMAShared <;>
        cases ho : ea.isDotOperand <;>
        simp [WarpGroupDotOp.verify, hd, ha, hb, isHopperNvidiaMma, isNVMMAShared,
          isDotOperand, hh, hs, ho] at h
    rw [WarpGroupDotOp.verify_of_present host op ed ea eb hd ha hb] at h
    simp only [specWgmmaRules, firstViolated, hall, Option.some.injEq] at h
    split_ifs at h <;> simp at h

/-- Witness of C3 (amended): an F64 operand A is rejected by the element-type
rule; an F16 operand A is not. -/
theorem C3_operand_A_element_type_witness :
    (∃ msg, (wgmmaExample [64, 8] .F64 .F32 0).verify singleCTAHost = some (.error msg)) ∧
    (wgmmaExample [64, 8] .F64 .F32 0).verify singleCTAHost = some
      (.error "WGMMA result element type must be F16, BF16, F32, F8E5M2, F8E4M3FN, or integer type") ∧
    (wgmmaExample [64, 8] .F16 .F32 0).verify singleCTAHost ≠ some
      (.error "WGMMA result element type must be F16, BF16, F32, F8E5M2, F8E4M3FN, or integer type") :=
  ⟨(C3_operand_A_element_type singleCTAHost (wgmmaExample [64, 8] .F64 .F32 0)).1
      rfl rfl rfl (by decide),
   ((C3_operand_A_element_type singleCTAHost (wgmmaExample [64, 8] .F64 .F32 0)).2.1
      ⟨rfl, Or.inl rfl, rfl, by decide, 64, 8, rfl, by decide, by decide⟩).mpr (by decide),
   (C3_operand_A_element_type singleCTAHost (wgmmaExample [64, 8] .F16 .F32 0)).2.2 (by decide)⟩

/-! ## Contraction and output dimensions -/

/-- C4: evaluation of `verifyDims` at operands of unequal rank. Both
`WarpGroupDotOp::verifyDims` and `TCGen5MMAOp::verifyDims` subscript the shape
of B with the rank of A. With A of shape `[4, 8]` and B of shape `[2, 8, 16]`
the innermost dimension of A equals the second-to-innermost dimension of B, yet
both functions return false; with B of shape `[8, 5, 16]` the two dimensions
differ, yet both functions return true. -/
theorem C4_verifyDims_subscripts_B_by_rank_of_A :
    (wgmmaWithShapes [4, 8] [2, 8, 16]).verifyDims = some false ∧
    (mmaExample (sharedOperand [4, 8] plainShared) (sharedOperand [2, 8, 16] plainShared)
      (tmemAcc [128, 128]) ⟨0, none⟩).verifyDims = some false ∧
    (wgmmaWithShapes [4, 8] [8, 5, 16]).verifyDims = some true ∧
    (mmaExample (sharedOperand [4, 8] plainShared) (sharedOperand [8, 5, 16] plainShared)
      (tmemAcc [128, 128]) ⟨0, none⟩).verifyDims = some true ∧
    ([4, 8] : List Int)[1]? = ([2, 8, 16] : List Int)[1]? ∧
    ([4, 8] : List Int)[1]? ≠ ([8, 5, 16] : List Int)[1]? := by
  refine ⟨rfl, rfl, rfl, rfl, rfl, by decide⟩

/-- Boolean equality of integers decides their equality. -/
theorem int_beq_eq_decide (x y : Int) : (x == y) = decide (x = y) := by
  by_cases h : x = y <;> simp [h]

/-- The subscript `size() - 1` of a rank-2 shape. -/
theorem sizeSub_two_one : sizeSub 2 1 = 1 := by decide

/-- The subscript `size() - 2` of a rank-2 shape. -/
theorem sizeSub_two_two : sizeSub 2 2 = 0 := by decide

/-- On rank-2 operands both unscaled `verifyDims` compare the innermost
dimension of A with the second-to-innermost dimension of B. -/
theorem verifyDims_rank_two (w : WarpGroupDotOp) (t : TCGen5MMAOp) (am ak bk bn : Int)
    (hwa : w.a.getShape = [am, ak]) (hwb : w.b.getShape = [bk, bn])
    (hta : t.a.shape = [am, ak]) (htb : t.b.shape = [bk, bn]) :
    w.verifyDims = some (decide (ak = bk)) ∧ t.verifyDims = some (decide (ak = bk)) := by
  constructor
  · simp [WarpGroupDotOp.verifyDims, hwa, hwb, sizeSub_two_one, sizeSub_two_two, int_beq_eq_decide]
  · simp [TCGen5MMAOp.verifyDims, hta, htb, sizeSub_two_one, sizeSub_two_two, int_beq_eq_decide]

/-- C6: evaluation of `TCGen5MMAScaledOp::verifyOutputDims` at an operand A
whose M dimension does not fit in 32 bits. With A of shape `[2 ^ 32 + 128, 64]`,
B of shape `[64, 256]`, neither in format E2M1, and D of shape `[128, 256]`, the
function returns true although the M dimension of D, 128, differs from the M
dimension of A, 4294967424: the narrowing to `int` maps the latter to 128. -/
theorem C6_verifyOutputDims_narrows_to_int :
    (scaledExample (sharedOperand [4294967424, 64] plainShared)
      (sharedOperand [64, 256] plainShared) (tmemAcc [128, 256]) .E4M3 .E4M3
      ⟨0, none⟩).verifyOutputDims = some true ∧
    specOutputDim 4294967424 .E4M3 (specTransposedA plainShared) ≠ 128 ∧
    specOutputDim 256 .E4M3 (specTransposedB plainShared) = 256 ∧
    wrap32 4294967424 = 128 := by
  refine ⟨by decide, by decide, by decide, by decide⟩

/-! ## Memory effects -/

/-- C7: the list returned by `TCGen5MMAOp::getEffects` is a Read of D in
TensorMemory unless the use-accumulator operand is a constant integer equal to
zero, followed by a Write of D in TensorMemory, a Read of A (in Shared memory if
the memory space of A is Shared, in TensorMemory otherwise) and a Read of B in
Shared memory. The Read of D is present exactly when the operand is not a
constant zero, and the Write of D is always present. -/
theorem C7_TCGen5MMAOp_getEffects (op : TCGen5MMAOp) :
    op.getEffects =
      (if op.useD.constantInt = some 0 then [] else
        [(⟨.Read, .operandD, .TensorMemory⟩ : EffectInstance)]) ++
      [⟨.Write, .operandD, .TensorMemory⟩,
       ⟨.Read, .operandA, if op.a.memorySpace = .Shared then .SharedMemory else .TensorMemory⟩,
       ⟨.Read, .operandB, .SharedMemory⟩] ∧
    ((⟨.Read, .operandD, .TensorMemory⟩ : EffectInstance) ∈ op.getEffects ↔
      op.useD.constantInt ≠ some 0) ∧
    (⟨.Write, .operandD, .TensorMemory⟩ : EffectInstance) ∈ op.getEffects := by
  unfold TCGen5MMAOp.getEffects notKnownZero
  rcases hu : op.useD.constantInt with _ | c
  · by_cases hs : op.a.memorySpace = .Shared <;> simp [hs]
  · by_cases hc : c = 0 <;> by_cases hs : op.a.memorySpace = .Shared <;> simp [hc, hs]

/-- C8: the list returned by `TCGen5MMAScaledOp::getEffects` is the list that
`TCGen5MMAOp::getEffects` returns for the same A, B, D and use-accumulator
operands, followed by a Read of the A-scale operand in TensorMemory and a Read
of the B-scale operand in TensorMemory. -/
theorem C8_scaled_getEffects_extends_unscaled (s : TCGen5MMAScaledOp) (m : TCGen5MMAOp)
    (ha : m.a = s.a) (_hb : m.b = s.b) (_hd : m.d = s.d) (hu : m.useD = s.useD) :
    s.getEffects = m.getEffects ++
      [⟨.Read, .operandAScale, .TensorMemory⟩, ⟨.Read, .operandBScale, .TensorMemory⟩] := by
  unfold TCGen5MMAScaledOp.getEffects TCGen5MMAOp.getEffects
  rw [ha, hu]
  simp

/-- Witness of C8: a scaled instruction and an unscaled instruction on the same
operands, the use-accumulator operand being a runtime value. -/
theorem C8_scaled_getEffects_extends_unscaled_witness :
    (scaledExample (sharedOperand [128, 64] plainShared) (sharedOperand [64, 256] plainShared)
      (tmemAcc [128, 256]) .E4M3 .E4M3 ⟨7, none⟩).getEffects =
    (mmaExample (sharedOperand [128, 64] plainShared) (sharedOperand [64, 256] plainShared)
      (tmemAcc [128, 256]) ⟨7, none⟩).getEffects ++
      [⟨.Read, .operandAScale, .TensorMemory⟩, ⟨.Read, .operandBScale, .TensorMemory⟩] :=
  C8_scaled_getEffects_extends_unscaled _ _ rfl rfl rfl rfl

/-- C9: `TMEMAllocOp::getEffects` returns the empty list iff the allocation is
immutable and the operation carries no attribute `tensor_memory_col_offset`; in
every other case it returns an Allocate of the result in TensorMemory, followed
by a Write of the result in TensorMemory exactly when an initial value is
supplied. -/
theorem C9_TMEMAllocOp_getEffects (op : TMEMAllocOp) :
    (op.getEffects = [] ↔
      (op.resultType.mutableMemory = false ∧ "tensor_memory_col_offset" ∉ op.attrs)) ∧
    op.getEffects =
      (if op.resultType.mutableMemory = false ∧ "tensor_memory_col_offset" ∉ op.attrs then []
       else (⟨.Allocate, .opResult 0, .TensorMemory⟩ : EffectInstance) ::
        (if op.src.isSome then [⟨.Write, .opResult 0, .TensorMemory⟩] else [])) := by
  unfold TMEMAllocOp.getEffects TMEMAllocOp.hasAttr
  by_cases hm : op.resultType.mutableMemory = true <;>
    by_cases ha : "tensor_memory_col_offset" ∈ op.attrs <;>
    cases hsrc : op.src <;> simp [hm, ha]

/-! ## Synchronicity -/

/-- C10: `TCGen5MMAOp::verify` and `TCGen5MMAScaledOp::verify` fail iff the
instruction is not marked asynchronous and its barrier list is non-empty, and
then with the message of line 261; every instruction that is asynchronous or
carries no barrier passes. -/
theorem C10_verify_synchronicity (op : TCGen5MMAOp) (sop : TCGen5MMAScaledOp) :
    ((∃ msg, op.verify = .error msg) ↔ (op.isAsync = false ∧ op.barriers ≠ [])) ∧
    (op.verify = .error "The op is synchronous but a barrier is present." ↔
      (op.isAsync = false ∧ op.barriers ≠ [])) ∧
    (op.verify = .ok () ↔ (op.isAsync = true ∨ op.barriers = [])) ∧
    ((∃ msg, sop.verify = .error msg) ↔ (sop.isAsync = false ∧ sop.barriers ≠ [])) ∧
    (sop.verify = .error "The op is synchronous but a barrier is present." ↔
      (sop.isAsync = false ∧ sop.barriers ≠ [])) ∧
    (sop.verify = .ok () ↔ (sop.isAsync = true ∨ sop.barriers = [])) := by
  unfold TCGen5MMAOp.verify TCGen5MMAScaledOp.verify
  refine ⟨?_, ?_, ?_, ?_, ?_, ?_⟩
  · cases op.isAsync <;> cases op.barriers <;> simp
  · cases op.isAsync <;> cases op.barriers <;> simp
  · cases op.isAsync <;> cases op.barriers <;> simp
  · cases sop.isAsync <;> cases sop.barriers <;> simp
  · cases sop.isAsync <;> cases sop.barriers <;> simp
  · cases sop.isAsync <;> cases sop.barriers <;> simp

/-! ## Builders -/

/-- C11: for every argument list of the convenience builders
`TCGen5MMAOp::build` and `TCGen5MMAScaledOp::build`, the asynchronous flag of
the built instruction is set iff the `isAsync` argument is true or the barrier
list is non-empty, and the built instruction passes the corresponding
`verify`. -/
theorem C11_build_establishes_synchronicity (token : Bool) (a b d : MemDescType)
    (accDep : Option Value) (useD pred : Value) (useTwoCTAs : Bool)
    (barriers barrierPreds : List Value) (isAsync : Bool)
    (aScale bScale : MemDescType) (aType bType : ScaleDotElemType) :
    ((TCGen5MMAOp.build token a b d accDep useD pred useTwoCTAs barriers barrierPreds
        isAsync).isAsync = true ↔ (isAsync = true ∨ barriers ≠ [])) ∧
    (TCGen5MMAOp.build token a b d accDep useD pred useTwoCTAs barriers barrierPreds
        isAsync).verify = .ok () ∧
    ((TCGen5MMAScaledOp.build token a b d accDep aScale bScale aType bType useD pred barriers
        barrierPreds isAsync).isAsync = true ↔ (isAsync = true ∨ barriers ≠ [])) ∧
    (TCGen5MMAScaledOp.build token a b d accDep aScale bScale aType bType useD pred barriers
        barrierPreds isAsync).verify = .ok () := by
  unfold TCGen5MMAOp.build TCGen5MMAScaledOp.build TCGen5MMAOp.verify TCGen5MMAScaledOp.verify
  cases isAsync <;> cases barriers <;> simp

/-! ## TMEMSubSliceOp -/

/-- The conversion `dyn_cast<TensorMemoryEncodingAttr>` yields an attribute
exactly on a tensor-memory encoding with the same parameters. -/
theorem dynCastTensorMemoryEncoding_eq_some (enc : Option Encoding)
    (e : TensorMemoryEncodingAttr) :
    dynCastTensorMemoryEncoding enc = some e ↔
      enc = some (.TensorMemory e.blockM e.blockN e.unpacked e.ctaSplitM e.ctaSplitN) := by
  obtain ⟨bm, bn, u, sm, sn⟩ := e
  rcases enc with _ | x
  · simp [dynCastTensorMemoryEncoding]
  · cases x <;> simp [dynCastTensorMemoryEncoding]

/-- Success of `TMEMSubSliceOp::verify` in terms of the two encodings. -/
theorem subSlice_verify_eq_ok_iff (op : TMEMSubSliceOp) :
    op.verify = .ok () ↔
      ∃ blockM blockN unpacked ctaSplitM ctaSplitN resultBlockN,
        op.src.encoding = some (.TensorMemory blockM blockN unpacked ctaSplitM ctaSplitN) ∧
        (blockM = 64 ∨ blockM = 128) ∧
        op.result.encoding =
          some (.TensorMemory blockM resultBlockN unpacked ctaSplitM ctaSplitN) := by
  unfold TMEMSubSliceOp.verify
  simp only []
  cases hs : dynCastTensorMemoryEncoding op.src.encoding with
  | none =>
    constructor
    · intro h
      cases h
    · rintro ⟨bm, bn, u, sm, sn, rn, h1, _, _⟩
      rw [h1] at hs
      simp [dynCastTensorMemoryEncoding] at hs
  | some s =>
    have hs1 := (dynCastTensorMemoryEncoding_eq_some _ _).mp hs
    by_cases hc : [64, 128].contains s.blockM = true
    swap
    · simp only [hc]
      constructor
      · intro h
        simp at h
      · rintro ⟨bm, bn, u, sm, sn, rn, h1, h2, _⟩
        rw [hs1] at h1
        simp at h1
        rw [← h1.1] at h2
        exact absurd (by rcases h2 with h | h <;> simp [h]) hc
    · have hbm : s.blockM = 64 ∨ s.blockM = 128 := by simpa using hc
      simp only [hc]
      cases hr : dynCastTensorMemoryEncoding op.result.encoding with
      | none =>
        constructor
        · intro h
          simp at h
        · rintro ⟨bm, bn, u, sm, sn, rn, _, _, h3⟩
          rw [h3] at hr
          simp [dynCastTensorMemoryEncoding] at hr
      | some r =>
        have hr1 := (dynCastTensorMemoryEncoding_eq_some _ _).mp hr
        by_cases hall : r.blockM = s.blockM ∧ r.ctaSplitM = s.ctaSplitM ∧
            r.ctaSplitN = s.ctaSplitN ∧ r.unpacked = s.unpacked
        · obtain ⟨e1, e2, e3, e4⟩ := hall
          constructor
          · intro _
            refine ⟨s.blockM, s.blockN, s.unpacked, s.ctaSplitM, s.ctaSplitN, r.blockN, hs1,
              hbm, ?_⟩
            rw [hr1, e1, e2, e3, e4]
          · intro _
            simp [e1, e2, e3, e4]
        · constructor
          · intro h
            exfalso
            apply hall
            by_contra hne
            have : (r.blockM != s.blockM || r.ctaSplitM != s.ctaSplitM ||
                r.ctaSplitN != s.ctaSplitN || r.unpacked != s.unpacked) = true := by
              simp only [Bool.or_eq_true, bne_iff_ne]
              by_contra hcon
              apply hne
              simp only [not_or, not_not] at hcon
              exact ⟨hcon.1.1.1, hcon.1.1.2, hcon.1.2, hcon.2⟩
            simp [this] at h
          · rintro ⟨bm, bn, u, sm, sn, rn, h1, _, h3⟩
            exfalso
            apply hall
            rw [hs1] at h1
            rw [hr1] at h3
            simp at h1 h3
            obtain ⟨a1, _, a3, a4, a5⟩ := h1
            obtain ⟨b1, _, b3, b4, b5⟩ := h3
            exact ⟨by rw [b1, a1], by rw [b4, a4], by rw [b5, a5], by rw [b3, a3]⟩

/-- C12: `TMEMSubSliceOp::verify` succeeds iff the source encoding is a
tensor-memory encoding whose blockM is 64 or 128 and the result encoding is a
tensor-memory encoding with the same blockM, ctaSplitM, ctaSplitN and unpacked
flag (blockN is free). A source with blockM = 128 and a matching result
succeeds; a source with blockM = 96 fails with the block-size message ending in
`got block_m=96`, whatever the result encoding is. -/
theorem C12_TMEMSubSliceOp_verify (op : TMEMSubSliceOp) :
    (op.verify = .ok () ↔
      ∃ blockM blockN unpacked ctaSplitM ctaSplitN resultBlockN,
        op.src.encoding = some (.TensorMemory blockM blockN unpacked ctaSplitM ctaSplitN) ∧
        (blockM = 64 ∨ blockM = 128) ∧
        op.result.encoding =
          some (.TensorMemory blockM resultBlockN unpacked ctaSplitM ctaSplitN)) ∧
    (∀ blockN unpacked ctaSplitM ctaSplitN resultBlockN,
      op.src.encoding = some (.TensorMemory 128 blockN unpacked ctaSplitM ctaSplitN) →
      op.result.encoding = some (.TensorMemory 128 resultBlockN unpacked ctaSplitM ctaSplitN) →
      op.verify = .ok ()) ∧
    (∀ blockN unpacked ctaSplitM ctaSplitN,
      op.src.encoding = some (.TensorMemory 96 blockN unpacked ctaSplitM ctaSplitN) →
      op.verify = .error
        "The source tensor memory descriptor must have a 128xN or 64xN layout, got block_m=96") := by
  refine ⟨subSlice_verify_eq_ok_iff op, ?_, ?_⟩
  · intro bn u sm sn rn h1 h2
    exact (subSlice_verify_eq_ok_iff op).mpr ⟨128, bn, u, sm, sn, rn, h1, Or.inr rfl, h2⟩
  · intro bn u sm sn h1
    unfold TMEMSubSliceOp.verify
    simp only [h1, dynCastTensorMemoryEncoding]
    rfl

/-- Witness of C12: a source with blockM = 128 and a result that narrows blockN
passes; a source with blockM = 96 fails with the block-size message. -/
theorem C12_TMEMSubSliceOp_verify_witness :
    (⟨tmemDesc [128, 128] (.TensorMemory 128 128 true 1 1) true,
      tmemDesc [128, 64] (.TensorMemory 128 64 true 1 1) true, 0⟩ : TMEMSubSliceOp).verify =
      .ok () ∧
    (⟨tmemDesc [96, 128] (.TensorMemory 96 128 true 1 1) true,
      tmemDesc [96, 64] (.TensorMemory 96 64 true 1 1) true, 0⟩ : TMEMSubSliceOp).verify =
      .error
        "The source tensor memory descriptor must have a 128xN or 64xN layout, got block_m=96" :=
  ⟨(C12_TMEMSubSliceOp_verify _).2.1 128 true 1 1 64 rfl rfl,
   (C12_TMEMSubSliceOp_verify _).2.2 128 true 1 1 rfl⟩

/-- C13: for a source descriptor with a non-empty shape and a tensor-memory
encoding and a requested size `0 ≤ size` (an `int`), `TMEMSubSliceOp::build`
produces an instruction whose result type has the source shape with the last
dimension replaced by `size`, the element type, memory space and mutability of
the source, and an encoding with `blockN = min (source blockN) size`, never
larger than the source blockN, and blockM, unpacked, ctaSplitM, ctaSplitN copied
from the source; when the source blockM is 64 or 128 the built instruction
passes `TMEMSubSliceOp::verify`. -/
theorem C13_TMEMSubSliceOp_build (alloc : MemDescType) (offset size : Int)
    (blockM blockN : Nat) (unpacked : Bool) (ctaSplitM ctaSplitN : Nat)
    (hshape : alloc.shape ≠ [])
    (henc : alloc.encoding = some (.TensorMemory blockM blockN unpacked ctaSplitM ctaSplitN))
    (hsize : 0 ≤ size) (hint : size < 2 ^ 31) :
    ∃ op, TMEMSubSliceOp.build alloc offset size = some op ∧
      op.src = alloc ∧ op.offset = offset ∧
      op.result.shape = alloc.shape.dropLast ++ [size] ∧
      op.result.elementType = alloc.elementType ∧
      op.result.memorySpace = alloc.memorySpace ∧
      op.result.mutableMemory = alloc.mutableMemory ∧
      op.result.encoding =
        some (.TensorMemory blockM (min blockN size.toNat) unpacked ctaSplitM ctaSplitN) ∧
      min blockN size.toNat ≤ blockN ∧
      ((blockM = 64 ∨ blockM = 128) → op.verify = .ok ()) := by
  have hu : intToUnsigned size = size.toNat := by
    unfold intToUnsigned
    congr 1
    apply Int.emod_eq_of_lt hsize
    have : (2 : Int) ^ 31 < 2 ^ 32 := by norm_num
    omega
  have hne : alloc.shape.isEmpty = false := by
    cases hsh : alloc.shape with
    | nil => exact absurd hsh hshape
    | cons x xs => rfl
  refine ⟨⟨alloc, ⟨alloc.shape.dropLast ++ [size], alloc.elementType,
    some (.TensorMemory blockM (min blockN size.toNat) unpacked ctaSplitM ctaSplitN),
    alloc.memorySpace, alloc.mutableMemory⟩, offset⟩, ?_, rfl, rfl, rfl, rfl, rfl, rfl, rfl,
    Nat.min_le_left _ _, ?_⟩
  · unfold TMEMSubSliceOp.build
    simp [hne, henc, dynCastTensorMemoryEncoding, hu, TensorMemoryEncodingAttr.toEncoding]
  · intro hbm
    exact (subSlice_verify_eq_ok_iff _).mpr
      ⟨blockM, blockN, unpacked, ctaSplitM, ctaSplitN, min blockN size.toNat, henc, hbm, rfl⟩

/-- Witness of C13: a sub-slice of 64 columns of a 128x128 allocation. -/
theorem C13_TMEMSubSliceOp_build_witness :
    ∃ op, TMEMSubSliceOp.build (tmemDesc [128, 128] (.TensorMemory 128 128 true 1 1) true) 32 64 =
        some op ∧
      op.src = tmemDesc [128, 128] (.TensorMemory 128 128 true 1 1) true ∧ op.offset = 32 ∧
      op.result.shape = [128, 128].dropLast ++ [64] ∧
      op.result.elementType = .F32 ∧
      op.result.memorySpace = .TensorMemory ∧
      op.result.mutableMemory = true ∧
      op.result.encoding = some (.TensorMemory 128 (min 128 (64 : Int).toNat) true 1 1) ∧
      min 128 (64 : Int).toNat ≤ 128 ∧
      (((128 : Nat) = 64 ∨ (128 : Nat) = 128) → op.verify = .ok ()) :=
  C13_TMEMSubSliceOp_build (tmemDesc [128, 128] (.TensorMemory 128 128 true 1 1) true) 32 64
    128 128 true 1 1 (by decide) rfl (by decide) (by decide)

/-! ## TensormapCreateOp -/

/-- C14: `TensormapCreateOp::verify` succeeds iff, with rank the length of
boxDim, globalDim has rank entries, globalStride has rank - 1 entries (rank
being at least 1) and elementStride has rank entries; so it fails on an empty
boxDim. Lengths (3, 3, 2, 3) succeed and lengths (3, 3, 3, 3) fail with the
message `Rank mismatch for global stride. Got 3 but expected 2`. -/
theorem C14_TensormapCreateOp_verify (op : TensormapCreateOp) :
    (op.verify = .ok () ↔
      op.globalDim.length = op.boxDim.length ∧
      (op.boxDim ≠ [] ∧ op.globalStride.length = op.boxDim.length - 1) ∧
      op.elementStride.length = op.boxDim.length) ∧
    (op.boxDim = [] → op.verify ≠ .ok ()) ∧
    (op.boxDim.length = 3 → op.globalDim.length = 3 → op.globalStride.length = 2 →
      op.elementStride.length = 3 → op.verify = .ok ()) ∧
    (op.boxDim.length = 3 → op.globalDim.length = 3 → op.globalStride.length = 3 →
      op.elementStride.length = 3 →
      op.verify = .error "Rank mismatch for global stride. Got 3 but expected 2") := by
  have hiff : op.verify = .ok () ↔
      op.globalDim.length = op.boxDim.length ∧
      (op.boxDim ≠ [] ∧ op.globalStride.length = op.boxDim.length - 1) ∧
      op.elementStride.length = op.boxDim.length := by
    have hb : op.boxDim ≠ [] ↔ 0 < op.boxDim.length := by
      cases op.boxDim <;> simp
    unfold TensormapCreateOp.verify
    simp only [hb]
    by_cases h1 : op.globalDim.length = op.boxDim.length
    swap
    · simp [h1]
    by_cases h2 : op.globalStride.length + 1 = op.boxDim.length
    swap
    · simp only [h1, ne_eq, not_true_eq_false, if_false, h2, not_false_eq_true, if_true]
      constructor
      · intro h
        cases h
      · rintro ⟨_, ⟨h3, h4⟩, _⟩
        omega
    by_cases h3 : op.elementStride.length = op.boxDim.length
    swap
    · simp [h1, h2, h3]
    simp only [h1, ne_eq, not_true_eq_false, if_false, h2, h3, true_and, and_true, true_iff]
    omega
  refine ⟨hiff, ?_, ?_, ?_⟩
  · intro hb hok
    exact (hiff.mp hok).2.1.1 hb
  · intro h0 h1 h2 h3
    apply hiff.mpr
    refine ⟨by omega, ⟨?_, by omega⟩, by omega⟩
    intro hb
    rw [hb] at h0
    simp at h0
  · intro h0 h1 h2 h3
    unfold TensormapCreateOp.verify
    simp only [h0, h1, h2, h3]
    rfl

/-- Witness of C14: operand lists of lengths (3, 3, 2, 3) pass, lengths
(3, 3, 3, 3) fail on the global stride. -/
theorem C14_TensormapCreateOp_verify_witness :
    (⟨List.replicate 3 ⟨0, none⟩, List.replicate 3 ⟨0, none⟩, List.replicate 2 ⟨0, none⟩,
      List.replicate 3 ⟨0, none⟩⟩ : TensormapCreateOp).verify = .ok () ∧
    (⟨List.replicate 3 ⟨0, none⟩, List.replicate 3 ⟨0, none⟩, List.replicate 3 ⟨0, none⟩,
      List.replicate 3 ⟨0, none⟩⟩ : TensormapCreateOp).verify =
      .error "Rank mismatch for global stride. Got 3 but expected 2" ∧
    (⟨[], [], [], []⟩ : TensormapCreateOp).verify ≠ .ok () :=
  ⟨(C14_TensormapCreateOp_verify _).2.2.1 rfl rfl rfl rfl,
   (C14_TensormapCreateOp_verify _).2.2.2 rfl rfl rfl rfl,
   (C14_TensormapCreateOp_verify _).2.1 rfl⟩

/-! ## Printing and parsing -/

/-- The loop of `parseBarriersAndPreds` reads back the pairs that
`printBarriersAndPreds` printed, given one iteration more than there are pairs
and a continuation that does not start with a comma. -/
theorem parseBarriersAndPredsLoop_print (pairs : List (Value × Value)) :
    ∀ (fuel : Nat) (rest : List Tok) (barriers preds : List Nat),
      pairs.length < fuel → rest.head? ≠ some .comma →
      parseBarriersAndPredsLoop fuel (printBarrierPredPairs pairs ++ rest) barriers preds =
        some (barriers ++ pairs.map (fun p => p.1.id), preds ++ pairs.map (fun p => p.2.id),
          rest) := by
  induction pairs with
  | nil =>
    intro fuel rest barriers preds hfuel hrest
    obtain ⟨f, rfl⟩ : ∃ f, fuel = f + 1 := ⟨fuel - 1, by simp at hfuel; omega⟩
    have hc : parseOptionalComma rest = none := by
      cases rest with
      | nil => rfl
      | cons t ts =>
        cases t <;> first | rfl | exact absurd rfl hrest
    simp [printBarrierPredPairs, parseBarriersAndPredsLoop, hc]
  | cons p ps ih =>
    intro fuel rest barriers preds hfuel hrest
    obtain ⟨f, rfl⟩ : ∃ f, fuel = f + 1 := ⟨fuel - 1, by simp at hfuel; omega⟩
    obtain ⟨b, q⟩ := p
    have hf : ps.length < f := by simp at hfuel; omega
    simp [printBarrierPredPairs, printValue, parseBarriersAndPredsLoop, parseOptionalComma,
      parseOperand, parseLSquare, parseRSquare, ih f rest _ _ hf hrest]

/-- Every pair is printed as five tokens. -/
theorem printBarrierPredPairs_length (pairs : List (Value × Value)) :
    (printBarrierPredPairs pairs).length = 5 * pairs.length := by
  induction pairs with
  | nil => rfl
  | cons p ps ih =>
    obtain ⟨b, q⟩ := p
    simp [printBarrierPredPairs, printValue, ih]
    omega

/-- C15: printing and parsing back is the identity on both custom operand
lists. For barrier and predicate lists of equal length (the empty lists
included) `printBarriersAndPreds` prints, and `parseBarriersAndPreds` on the
printed tokens, followed by any continuation that does not start with a comma,
succeeds, consumes exactly the printed tokens and yields the same barriers and
predicates in the same order. For every state of the optional token (token type
absent; present without dependency; present with one dependency operand)
`parseToken` on what `printToken` printed succeeds, consumes exactly the printed
tokens and yields the same presence of the token type and the same
dependency. -/
theorem C15_print_parse_roundtrip :
    (∀ (barriers preds : List Value) (rest : List Tok),
      barriers.length = preds.length → rest.head? ≠ some .comma →
      ∃ printed, printBarriersAndPreds barriers preds = some printed ∧
        parseBarriersAndPreds (printed ++ rest) =
          some (barriers.map (fun v => v.id), preds.map (fun v => v.id), rest)) ∧
    (∀ (token : Bool) (dep : Option Value) (rest : List Tok),
      (token = false → dep = none ∧ rest.head? ≠ some .lSquare) →
      parseToken (printToken dep token ++ rest) =
        some (dep.map (fun v => v.id), token, rest)) := by
  constructor
  · intro barriers preds rest hlen hrest
    refine ⟨printBarrierPredPairs (barriers.zip preds), ?_, ?_⟩
    · simp [printBarriersAndPreds, hlen]
    · unfold parseBarriersAndPreds
      rw [parseBarriersAndPredsLoop_print (barriers.zip preds) _ rest [] [] ?_ hrest]
      · have h1 : (barriers.zip preds).map (fun p => p.1.id) = barriers.map (fun v => v.id) := by
          have := List.map_fst_zip barriers preds (le_of_eq hlen)
          calc (barriers.zip preds).map (fun p => p.1.id)
              = ((barriers.zip preds).map Prod.fst).map (fun v => v.id) := by simp
            _ = barriers.map (fun v => v.id) := by rw [this]
        have h2 : (barriers.zip preds).map (fun p => p.2.id) = preds.map (fun v => v.id) := by
          have := List.map_snd_zip barriers preds (le_of_eq hlen.symm)
          calc (barriers.zip preds).map (fun p => p.2.id)
              = ((barriers.zip preds).map Prod.snd).map (fun v => v.id) := by simp
            _ = preds.map (fun v => v.id) := by rw [this]
        simp [h1, h2]
      · rw [List.length_append, printBarrierPredPairs_length]
        omega
  · intro token dep rest h
    cases token with
    | false =>
      obtain ⟨hd, hr⟩ := h rfl
      subst hd
      have hc : parseOptionalLSquare rest = none := by
        cases rest with
        | nil => rfl
        | cons t ts =>
          cases t <;> first | rfl | exact absurd rfl hr
      simp [printToken, parseToken, hc]
    | true =>
      cases dep with
      | none => simp [printToken, parseToken, parseOptionalLSquare, parseOptionalRSquare]
      | some d =>
        simp [printToken, printValue, parseToken, parseOptionalLSquare, parseOptionalRSquare,
          parseOperand, parseRSquare]

/-- Witness of C15: two barriers with their predicates, the empty lists, and
the three states of the optional token. -/
theorem C15_print_parse_roundtrip_witness :
    (∃ printed, printBarriersAndPreds [⟨3, none⟩, ⟨5, none⟩] [⟨4, none⟩, ⟨6, none⟩] =
        some printed ∧
      parseBarriersAndPreds (printed ++ []) =
        some ([(⟨3, none⟩ : Value), ⟨5, none⟩].map (fun v => v.id),
          [(⟨4, none⟩ : Value), ⟨6, none⟩].map (fun v => v.id), [])) ∧
    (∃ printed, printBarriersAndPreds [] [] = some printed ∧
      parseBarriersAndPreds (printed ++ []) =
        some (([] : List Value).map (fun v => v.id), ([] : List Value).map (fun v => v.id), [])) ∧
    parseToken (printToken none false ++ []) =
      some ((none : Option Value).map (fun v => v.id), false, []) ∧
    parseToken (printToken none true ++ []) =
      some ((none : Option Value).map (fun v => v.id), true, []) ∧
    parseToken (printToken (some ⟨9, none⟩) true ++ []) =
      some ((some (⟨9, none⟩ : Value)).map (fun v => v.id), true, []) :=
  ⟨C15_print_parse_roundtrip.1 _ _ [] rfl (by decide),
   C15_print_parse_roundtrip.1 [] [] [] rfl (by decide),
   C15_print_parse_roundtrip.2 false none [] (fun _ => ⟨rfl, by decide⟩),
   C15_print_parse_roundtrip.2 true none [] (fun h => absurd h (by decide)),
   C15_print_parse_roundtrip.2 true (some ⟨9, none⟩) [] (fun h => absurd h (by decide))⟩

/-! ## WarpGroupDotOp: the claim on `getEffects` -/

/-- C16: `WarpGroupDotOp::getEffects` emits a read of operand A iff the type of
A is a memory descriptor and a read of operand B iff the type of B is a memory
descriptor, A before B; a register tensor contributes nothing, every emitted
effect is a Read attributed to Shared memory, and the list has at most two
entries. -/
theorem C16_WarpGroupDotOp_getEffects (op : WarpGroupDotOp) :
    op.getEffects =
      (if op.a.isMemDesc = true then [(⟨.Read, .operandA, .SharedMemory⟩ : EffectInstance)]
        else []) ++
      (if op.b.isMemDesc = true then [(⟨.Read, .operandB, .SharedMemory⟩ : EffectInstance)]
        else []) ∧
    ((⟨.Read, .operandA, .SharedMemory⟩ : EffectInstance) ∈ op.getEffects ↔
      op.a.isMemDesc = true) ∧
    ((⟨.Read, .operandB, .SharedMemory⟩ : EffectInstance) ∈ op.getEffects ↔
      op.b.isMemDesc = true) ∧
    op.getEffects.all (fun e => e.effect == .Read && e.resource == .SharedMemory) = true ∧
    op.getEffects.all (fun e => e.value == .operandA || e.value == .operandB) = true ∧
    op.getEffects.length ≤ 2 := by
  unfold WarpGroupDotOp.getEffects
  cases op.a.isMemDesc <;> cases op.b.isMemDesc <;> simp

/-! ## Barrier operations and TMA copy -/

/-- C17: `AsyncTMACopyGlobalToLocalOp::verify` succeeds iff the type of the
barrier operand passes the shared barrier-type check, the number of coordinates
is between 1 and 5 and the destination is mutable; once the barrier check
passes, 0 or 6 coordinates are rejected with the coordinate message, and with 1
to 5 coordinates an immutable destination is rejected. -/
theorem C17_AsyncTMACopyGlobalToLocalOp_verify
    (verifyBarrierType : MemDescType → Except String Unit) (op : AsyncTMACopyGlobalToLocalOp) :
    (op.verify verifyBarrierType = .ok () ↔
      verifyBarrierType op.barrier = .ok () ∧ 1 ≤ op.coord.length ∧ op.coord.length ≤ 5 ∧
        op.result.mutableMemory = true) ∧
    (verifyBarrierType op.barrier = .ok () →
      (op.coord.length = 0 ∨ op.coord.length = 6 →
        op.verify verifyBarrierType =
          .error "TMA copies must have between 1 and 5 coordinates") ∧
      (op.coord.length = 1 ∨ op.coord.length = 5 →
        (op.result.mutableMemory = true → op.verify verifyBarrierType = .ok ()) ∧
        (op.result.mutableMemory = false →
          op.verify verifyBarrierType = .error "Cannot store into immutable memory"))) := by
  unfold AsyncTMACopyGlobalToLocalOp.verify
  constructor
  · cases hb : verifyBarrierType op.barrier with
    | error e => simp
    | ok u =>
      by_cases h1 : op.coord.length < 1 <;> by_cases h2 : op.coord.length > 5 <;>
        cases hm : op.result.mutableMemory <;> simp [h1, h2]
      all_goals omega
  · intro hb
    rw [hb]
    constructor
    · intro h
      rcases h with h | h <;> simp [h]
    · intro h
      constructor
      · intro hm
        rcases h with h | h <;> simp [h, hm]
      · intro hm
        rcases h with h | h <;> simp [h, hm]

/-- Witness of C17: with a barrier that passes the check, one coordinate and a
mutable destination pass, no coordinate is rejected, and an immutable
destination is rejected. -/
theorem C17_AsyncTMACopyGlobalToLocalOp_verify_witness :
    (tmaCopyExample [⟨0, none⟩] true).verify oneElementSharedCheck = .ok () ∧
    (tmaCopyExample [] true).verify oneElementSharedCheck =
      .error "TMA copies must have between 1 and 5 coordinates" ∧
    (tmaCopyExample [⟨0, none⟩] false).verify oneElementSharedCheck =
      .error "Cannot store into immutable memory" :=
  ⟨(((C17_AsyncTMACopyGlobalToLocalOp_verify oneElementSharedCheck
        (tmaCopyExample [⟨0, none⟩] true)).2 rfl).2 (Or.inl rfl)).1 rfl,
   ((C17_AsyncTMACopyGlobalToLocalOp_verify oneElementSharedCheck
        (tmaCopyExample [] true)).2 rfl).1 (Or.inl rfl),
   (((C17_AsyncTMACopyGlobalToLocalOp_verify oneElementSharedCheck
        (tmaCopyExample [⟨0, none⟩] false)).2 rfl).2 (Or.inl rfl)).2 rfl⟩

/-- C18: the five barrier operations apply the same barrier-type check to their
barrier operand: InitBarrier, InvalBarrier, BarrierExpect and WaitBarrier verify
successfully iff the check accepts the type of the operand, and ArriveBarrier
verifies successfully iff the check accepts it and the arrival count is at
least 1. -/
theorem C18_barrier_operations_verify (verifyBarrierType : MemDescType → Except String Unit)
    (init : InitBarrierOp) (inval : InvalBarrierOp) (expect : BarrierExpectOp)
    (wait : WaitBarrierOp) (arrive : ArriveBarrierOp) :
    (init.verify verifyBarrierType = .ok () ↔ verifyBarrierType init.alloc = .ok ()) ∧
    (inval.verify verifyBarrierType = .ok () ↔ verifyBarrierType inval.alloc = .ok ()) ∧
    (expect.verify verifyBarrierType = .ok () ↔ verifyBarrierType expect.alloc = .ok ()) ∧
    (wait.verify verifyBarrierType = .ok () ↔ verifyBarrierType wait.alloc = .ok ()) ∧
    (arrive.verify verifyBarrierType = .ok () ↔
      (verifyBarrierType arrive.alloc = .ok () ∧ 1 ≤ arrive.count)) ∧
    (arrive.verify verifyBarrierType = .error "count must be greater than or equal to 1" ↔
      (verifyBarrierType arrive.alloc = .error "count must be greater than or equal to 1" ∨
        (verifyBarrierType arrive.alloc = .ok () ∧ arrive.count = 0))) := by
  unfold InitBarrierOp.verify InvalBarrierOp.verify BarrierExpectOp.verify WaitBarrierOp.verify
    ArriveBarrierOp.verify
  refine ⟨?_, ?_, ?_, ?_, ?_, ?_⟩
  · cases verifyBarrierType init.alloc <;> simp
  · cases verifyBarrierType inval.alloc <;> simp
  · cases verifyBarrierType expect.alloc <;> simp
  · cases verifyBarrierType wait.alloc <;> simp
  · cases verifyBarrierType arrive.alloc <;> simp
    omega
  · cases verifyBarrierType arrive.alloc <;> simp

/-! ## Tensor-memory load, store and copy -/

/-- Counterexample to C19 as stated: a descriptor in TensorMemory with a
tensor-memory-scales encoding passes the memory-space and encoding checks of
`TMEMStoreOp::verify` as a destination and fails the encoding check of
`TMEMLoadOp::verify` as a source. -/
theorem C19_load_store_symmetry_counterexample :
    (tmemDesc [128, 4] .TensorMemoryScales true).memorySpace = .TensorMemory ∧
    isTensorMemoryScalesEncoding (tmemDesc [128, 4] .TensorMemoryScales true).encoding = true ∧
    TMEMStoreOp.verifyMemorySide (tmemDesc [128, 4] .TensorMemoryScales true) = .ok () ∧
    TMEMLoadOp.verifyMemorySide (tmemDesc [128, 4] .TensorMemoryScales true) =
      .error "should use tensor memory encoding." :=
  ⟨rfl, rfl, rfl, rfl⟩

/-- C19 (amended): the memory-space and encoding checks of `TMEMLoadOp::verify`
accept a descriptor as a source iff its memory space is TensorMemory and its
encoding is a tensor-memory encoding; those of `TMEMStoreOp::verify` accept it
as a destination iff its memory space is TensorMemory and its encoding is a
tensor-memory or a tensor-memory-scales encoding; so the load accepts exactly
the descriptors that the store accepts and whose encoding is not a
tensor-memory-scales encoding. A verifier that succeeds has passed these
checks. -/
theorem C19_load_store_memory_side (host : TMEMHost) (m : MemDescType)
    (load : TMEMLoadOp) (store : TMEMStoreOp) :
    (TMEMLoadOp.verifyMemorySide m = .ok () ↔
      (m.memorySpace = .TensorMemory ∧ isTensorMemoryEncoding m.encoding = true)) ∧
    (TMEMStoreOp.verifyMemorySide m = .ok () ↔
      (m.memorySpace = .TensorMemory ∧
        (isTensorMemoryEncoding m.encoding = true ∨
          isTensorMemoryScalesEncoding m.encoding = true))) ∧
    (TMEMLoadOp.verifyMemorySide m = .ok () ↔
      (TMEMStoreOp.verifyMemorySide m = .ok () ∧
        isTensorMemoryScalesEncoding m.encoding = false)) ∧
    (load.verify host = .ok () ↔
      (TMEMLoadOp.verifyMemorySide load.src = .ok () ∧
        verifyTMEMOperand host load.result load.src "result" = .ok () ∧
        host.verifyMemoryOpTypes (.memDesc load.src) (.tensor load.result) = .ok ())) ∧
    (store.verify host = .ok () ↔
      (TMEMStoreOp.verifyMemorySide store.dst = .ok () ∧ store.dst.mutableMemory = true ∧
        verifyTMEMOperand host store.src store.dst "source" = .ok () ∧
        host.verifyMemoryOpTypes (.tensor store.src) (.memDesc store.dst) = .ok ())) := by
  refine ⟨?_, ?_, ?_, ?_, ?_⟩
  · unfold TMEMLoadOp.verifyMemorySide
    cases m.memorySpace <;> cases isTensorMemoryEncoding m.encoding <;>
      simp [MemorySpace.isTensorMemory]
  · unfold TMEMStoreOp.verifyMemorySide
    cases m.memorySpace <;> cases isTensorMemoryEncoding m.encoding <;>
      cases isTensorMemoryScalesEncoding m.encoding <;> simp [MemorySpace.isTensorMemory]
  · unfold TMEMLoadOp.verifyMemorySide TMEMStoreOp.verifyMemorySide
    rcases m.encoding with _ | e
    · cases m.memorySpace <;>
        simp [MemorySpace.isTensorMemory, isTensorMemoryEncoding, isTensorMemoryScalesEncoding]
    · cases e <;> cases m.memorySpace <;>
        simp [MemorySpace.isTensorMemory, isTensorMemoryEncoding, isTensorMemoryScalesEncoding]
  · unfold TMEMLoadOp.verify
    cases TMEMLoadOp.verifyMemorySide load.src <;>
      cases verifyTMEMOperand host load.result load.src "result" <;> simp
  · unfold TMEMStoreOp.verify
    cases TMEMStoreOp.verifyMemorySide store.dst <;> cases store.dst.mutableMemory <;>
      cases verifyTMEMOperand host store.src store.dst "source" <;> simp

/-- A tensor-memory or tensor-memory-scales encoding is accepted by the
TensorMemory space only. -/
theorem memorySpace_of_tensorMemoryEncoding (m : MemDescType)
    (hacc : m.encodingAccepted = true)
    (henc : isTensorMemoryEncoding m.encoding = true ∨
      isTensorMemoryScalesEncoding m.encoding = true) :
    m.memorySpace = .TensorMemory := by
  unfold MemDescType.encodingAccepted at hacc
  rcases hm : m.encoding with _ | e
  · rw [hm] at henc
    simp [isTensorMemoryEncoding, isTensorMemoryScalesEncoding] at henc
  · rw [hm] at henc hacc
    cases e <;> cases hs : m.memorySpace <;>
      simp_all [isTensorMemoryEncoding, isTensorMemoryScalesEncoding, MemorySpace.accepts]

/-- What `addCompletionBarrier` changes: one barrier and one predicate are
appended, every other operand and attribute, the asynchronous flag included, is
kept; hence the result verifies exactly when the instruction is marked
asynchronous. -/
theorem addCompletionBarrier_effect (op : TCGen5MMAOp) (sop : TCGen5MMAScaledOp)
    (barrier pred : Value) :
    op.addCompletionBarrier barrier pred =
      { op with barriers := op.barriers ++ [barrier],
                barrierPreds := op.barrierPreds ++ [pred] } ∧
    ((op.addCompletionBarrier barrier pred).verify = .ok () ↔ op.isAsync = true) ∧
    sop.addCompletionBarrier barrier pred =
      { sop with barriers := sop.barriers ++ [barrier],
                 barrierPreds := sop.barrierPreds ++ [pred] } ∧
    ((sop.addCompletionBarrier barrier pred).verify = .ok () ↔ sop.isAsync = true) := by
  refine ⟨rfl, ?_, rfl, ?_⟩
  · unfold TCGen5MMAOp.addCompletionBarrier TCGen5MMAOp.verify
    cases op.isAsync <;> simp
  · unfold TCGen5MMAScaledOp.addCompletionBarrier TCGen5MMAScaledOp.verify
    cases sop.isAsync <;> simp

/-- C22: evaluation of `addCompletionBarrier` on a synchronous instruction
without barriers. The instruction passes `verify`; after
`addCompletionBarrier(barrier, pred)` it carries one barrier and one predicate,
its asynchronous flag is still unset and `verify` fails with the message of the
synchronicity rule, for TCGen5MMA and for TCGen5MMAScaled, whereas the builder
given the same barrier sets the flag. -/
theorem C22_addCompletionBarrier_keeps_flag_unset :
    syncMMA.verify = .ok () ∧
    (syncMMA.addCompletionBarrier ⟨8, none⟩ ⟨9, none⟩).barriers = [⟨8, none⟩] ∧
    (syncMMA.addCompletionBarrier ⟨8, none⟩ ⟨9, none⟩).barrierPreds = [⟨9, none⟩] ∧
    (syncMMA.addCompletionBarrier ⟨8, none⟩ ⟨9, none⟩).isAsync = false ∧
    (syncMMA.addCompletionBarrier ⟨8, none⟩ ⟨9, none⟩).verify =
      .error "The op is synchronous but a barrier is present." ∧
    syncScaledMMA.verify = .ok () ∧
    (syncScaledMMA.addCompletionBarrier ⟨8, none⟩ ⟨9, none⟩).barriers = [⟨8, none⟩] ∧
    (syncScaledMMA.addCompletionBarrier ⟨8, none⟩ ⟨9, none⟩).barrierPreds = [⟨9, none⟩] ∧
    (syncScaledMMA.addCompletionBarrier ⟨8, none⟩ ⟨9, none⟩).isAsync = false ∧
    (syncScaledMMA.addCompletionBarrier ⟨8, none⟩ ⟨9, none⟩).verify =
      .error "The op is synchronous but a barrier is present." ∧
    (TCGen5MMAOp.build false syncMMA.a syncMMA.b syncMMA.d none ⟨0, none⟩ ⟨1, none⟩ false
      [⟨8, none⟩] [⟨9, none⟩] false).isAsync = true := by
  refine ⟨rfl, rfl, rfl, rfl, rfl, rfl, rfl, rfl, rfl, rfl, rfl⟩

/-! ## TMEMCopyOp: the asserting cast -/

/-- Once its first four rules hold, `TMEMCopyOp::verify` returns no result on a
source whose encoding is not an NVMMA-shared encoding: the cast of line 605
asserts. -/
theorem TMEMCopyOp.verify_aborts (isInnermostContiguous : MemDescType → Nat → Bool)
    (op : TMEMCopyOp) (hsrc : op.src.memorySpace = .Shared)
    (hdst : isTensorMemoryEncoding op.dst.encoding = true ∨
      isTensorMemoryScalesEncoding op.dst.encoding = true)
    (hbar : ∀ barrier, op.barrier = some barrier → barrier.memorySpace = .Shared)
    (hmut : op.dst.mutableMemory = true) (henc : castNVMMAShared op.src.encoding = none) :
    op.verify isInnermostContiguous = none := by
  have c2 : (isTensorMemoryEncoding op.dst.encoding ||
      isTensorMemoryScalesEncoding op.dst.encoding) = true := by simpa using hdst
  have c3 : (match op.barrier with
      | some barrier => !barrier.memorySpace.isShared
      | none => false) = false := by
    cases hb : op.barrier with
    | none => rfl
    | some barrier => simp [hbar barrier hb, MemorySpace.isShared]
  have c5 : castNVMMAShared op.src.encoding = none := henc
  have c1 : op.src.memorySpace.isShared = true := by
    rw [hsrc]
    rfl
  have c0 : op.dst.encoding.isNone = false := by
    cases hd : op.dst.encoding with
    | none => simp [hd, isTensorMemoryEncoding, isTensorMemoryScalesEncoding] at hdst
    | some e => rfl
  unfold TMEMCopyOp.verify
  simp [c1, c0, c2, c3, hmut, c5]

/-- C23: evaluation of `TMEMCopyOp::verify` on a source in Shared memory whose
encoding is absent, and on one whose encoding is of another variant than
NVMMA-shared, the destination being a mutable tensor-memory buffer: no
`LogicalResult` is returned, neither success nor the failure `The source should
not have swizzling applied for now`, because `cast<NVMMASharedEncodingAttr>`
asserts. With an NVMMA-shared source that is swizzled the failure is
returned. -/
theorem C23_TMEMCopyOp_verify_cast_asserts :
    (tmemCopyFrom none).verify innermostAtLeast = none ∧
    (tmemCopyFrom (some (.Distributed 0))).verify innermostAtLeast = none ∧
    (tmemCopyFrom none).src.memorySpace = .Shared ∧
    (tmemCopyFrom (some (.NVMMAShared false false 128))).verify innermostAtLeast =
      some (.error "The source should not have swizzling applied for now") ∧
    (tmemCopyFrom plainShared).verify innermostAtLeast = some (.ok ()) := by
  refine ⟨rfl, rfl, rfl, rfl, rfl⟩

/-! ## Partial accumulation -/

/-- C24: for a WarpGroupDot instruction that passes `verify` and whose operand A
has rank at least 2, `needsPartialAccumulator` returns a result, and if it
returns true then `maxNumImpreciseAcc` is at least 32, dimension 1 of A is at
least `maxNumImpreciseAcc` (hence at least 32), the element type of A is F8E5M2
or F8E4M3FN (never one of the FNUZ types) and the element type of the result is
F32. -/
theorem C24_needsPartialAccumulator_of_verified (host : Host) (op : WarpGroupDotOp)
    (hok : op.verify host = some (.ok ())) (hrank : 2 ≤ op.a.getShape.length) :
    (∃ r, op.needsPartialAccumulator = some r) ∧
    (op.needsPartialAccumulator = some true →
      32 ≤ op.maxNumImpreciseAcc ∧
      (∃ dim, op.a.getShape[1]? = some dim ∧ (op.maxNumImpreciseAcc : Int) ≤ dim ∧ 32 ≤ dim) ∧
      (op.a.getElementType = .Float8E5M2 ∨ op.a.getElementType = .Float8E4M3FN) ∧
      op.d.elementType = .F32) := by
  obtain ⟨_, _, _, _, _, hall, hprec⟩ := (WarpGroupDotOp.verify_eq_ok_iff host op).mp hok
  obtain ⟨dim, hdim⟩ : ∃ dim, op.a.getShape[1]? = some dim := by
    rcases hs : op.a.getShape with _ | ⟨x, _ | ⟨y, t⟩⟩
    · rw [hs] at hrank
      simp at hrank
    · rw [hs] at hrank
      simp at hrank
    · exact ⟨y, by simp⟩
  unfold WarpGroupDotOp.needsPartialAccumulator
  simp only [hdim, Option.map_some']
  constructor
  · split_ifs
    · exact ⟨_, rfl⟩
    · exact ⟨_, rfl⟩
  · intro h
    split_ifs at h with hc
    swap
    · simp at h
    simp only [Option.some.injEq, decide_eq_true_eq] at h
    simp only [Bool.and_eq_true] at hc
    obtain ⟨hfp8, hf32⟩ := hc
    have hty : op.a.getElementType = .Float8E5M2 ∨ op.a.getElementType = .Float8E4M3FN := by
      cases hel : op.a.getElementType <;>
        simp_all [ElemType.isAnyFloat8, wgmmaElemTyAllowed, ElemType.isFloat8E5M2OrE4M3FN,
          ElemType.isInteger, ElemType.isF16, ElemType.isBF16, ElemType.isF32]
    have hf8 : op.a.getElementType.isFloat8E5M2OrE4M3FN = true := by
      rcases hty with e | e <;> simp [e, ElemType.isFloat8E5M2OrE4M3FN]
    have hmax : 32 ≤ op.maxNumImpreciseAcc := by
      by_contra hlt
      exact hprec ⟨by omega, hf8, hf32⟩
    have hD : op.d.elementType = .F32 := by
      cases hel : op.d.elementType <;> simp_all [ElemType.isF32]
    exact ⟨hmax, ⟨dim, rfl, h, by omega⟩, hty, hD⟩

/-- Witness of C24: an instruction with F8E5M2 operands, 64 columns in A, an
F32 accumulator and `maxNumImpreciseAcc = 32` verifies and needs a partial
accumulator. -/
theorem C24_needsPartialAccumulator_of_verified_witness :
    32 ≤ (wgmmaFp8 32).maxNumImpreciseAcc ∧
    (∃ dim, (wgmmaFp8 32).a.getShape[1]? = some dim ∧
      ((wgmmaFp8 32).maxNumImpreciseAcc : Int) ≤ dim ∧ 32 ≤ dim) ∧
    ((wgmmaFp8 32).a.getElementType = .Float8E5M2 ∨
      (wgmmaFp8 32).a.getElementType = .Float8E4M3FN) ∧
    (wgmmaFp8 32).d.elementType = .F32 :=
  (C24_needsPartialAccumulator_of_verified singleCTAHost (wgmmaFp8 32) rfl (by decide)).2 rfl

/-! ## Block sizes of TCGen5MMAScaledOp -/

